import Mathlib

/-!
Shallow embedding of the Floe-Rules-Engine repository (three rule engines:
`LLM_Rules_Engine.py`, `syntax_rules_engine.py`, `floe_rules_engine/rules_engine/`)
together with proofs about the claims of its specification.

Modelling conventions:
* Python numbers (floats and ints used in confidences / hour counts) are `ℚ`;
  all arithmetic in the sources is exact on the values exercised here.
* Python dicts used as evaluation contexts are association lists
  `List (String × Value)` with `dict.get` semantics (`ctxGet`).
* Fallible Python operations (`float(...)`, `str.format(...)`) return
  `Except PyExc` / `Option` values; an uncaught exception is an `Except.error`.
* The regular expressions of the parsers are embedded with a small
  backtracking matcher (`RE`, `reM`) that mirrors `re.search` / `re.finditer`
  semantics (leftmost match, greedy `+`/`?`, lazy `+?`) for the pattern
  shapes occurring in the sources.
-/

/-- Characters matched by Python's `\s` class. -/
def isSpaceCh (c : Char) : Bool :=
  c = ' ' || c = '\t' || c = '\n' || c = '\r' || c = '\x0b' || c = '\x0c'

def isDigitCh (c : Char) : Bool := c.isDigit

/-- Python's `\w` class (ASCII). -/
def isWordCh (c : Char) : Bool := c.isAlphanum || c = '_'

/-- Python's `.` (any char except newline, DOTALL off). -/
def notNL (c : Char) : Bool := c ≠ '\n'

def isQuoteCh (c : Char) : Bool := c = '"' || c = '\x27'

def notQuoteCh (c : Char) : Bool := !(isQuoteCh c)

/-- Python `str.strip()`. -/
def pyStrip (s : String) : String :=
  ⟨((s.data.dropWhile isSpaceCh).reverse.dropWhile isSpaceCh).reverse⟩

/-- Python `str.lower()` (ASCII as exercised by the sources). -/
def pyLower (s : String) : String := ⟨s.data.map Char.toLower⟩

/-- Python `str.upper()`. -/
def pyUpper (s : String) : String := ⟨s.data.map Char.toUpper⟩

/-- Python substring test `needle in hay`. -/
def containsSub : List Char → List Char → Bool
  | needle, hay =>
    if needle.isPrefixOf hay then true
    else
      match hay with
      | [] => false
      | _ :: t => containsSub needle t

/-- Source: `needle in hay` on strings. -/
def strIn (needle hay : String) : Bool := containsSub needle.data hay.data

/-- Python `str.replace(pat, rep)`: all non-overlapping occurrences, left
to right. `fuel` bounds the scan; callers pass the input length + 1, which
suffices since every step consumes at least one character (the sources
never call `replace` with an empty pattern). -/
def replaceAux (pat rep : List Char) : ℕ → List Char → List Char
  | _, [] => []
  | 0, s => s
  | fuel + 1, c :: t =>
    if pat ≠ [] && pat.isPrefixOf (c :: t) then
      rep ++ replaceAux pat rep fuel ((c :: t).drop pat.length)
    else c :: replaceAux pat rep fuel t

def pyReplace (s pat rep : String) : String :=
  ⟨replaceAux pat.data rep.data (s.data.length + 1) s.data⟩

/-- The characters before the first occurrence of `sep`
(`s.split(sep)[0]` for a nonempty separator). -/
def takeUntilSub (sep : List Char) : List Char → List Char
  | [] => []
  | c :: t => if sep.isPrefixOf (c :: t) then [] else c :: takeUntilSub sep t

def digitsToNat (l : List Char) : ℕ :=
  l.foldl (fun a c => a * 10 + (c.toNat - 48)) 0

/-- Python `str.title()` as used on the appointment-type keywords. -/
def pyTitleAux : Bool → List Char → List Char
  | _, [] => []
  | prevAlpha, c :: t =>
    (if c.isAlpha then (if prevAlpha then c.toLower else c.toUpper) else c)
      :: pyTitleAux c.isAlpha t

def pyTitle (s : String) : String := ⟨pyTitleAux false s.data⟩

/-! ### Kernel-reducible rational arithmetic

Batteries marks `Rat.add`, `Rat.mul`, `Rat.sub` and `Rat.inv`
`@[irreducible]`, which blocks definitional evaluation (`rfl`/`decide`) of
anything built from `+`, `*`, `/` on `ℚ`. The helpers below compute the
same values through `mkRat`; bridge lemmas further down identify them with
the standard operations. -/

def qadd (a b : ℚ) : ℚ := mkRat (a.num * b.den + b.num * a.den) (a.den * b.den)

def qmul (a b : ℚ) : ℚ := mkRat (a.num * b.num) (a.den * b.den)

def qdiv (a b : ℚ) : ℚ :=
  if b.num < 0 then mkRat (-(a.num * (b.den : ℤ))) (a.den * b.num.natAbs)
  else mkRat (a.num * (b.den : ℤ)) (a.den * b.num.natAbs)

def qneg (a : ℚ) : ℚ := mkRat (-a.num) a.den

def natQ (n : ℕ) : ℚ := mkRat (n : ℤ) 1

def intQ (z : ℤ) : ℚ := mkRat z 1

/-- Boolean `a ≤ b` on `ℚ` (Mathlib's `≤` is definitionally
`Rat.blt b a = false`). -/
def qble (a b : ℚ) : Bool := !(Rat.blt b a)

/-- Boolean equality on `ℚ` (rationals are stored normalized). -/
def qeq (a b : ℚ) : Bool := a.num == b.num && a.den == b.den

/-- Python `max(0, q)`. -/
def qmax0 (q : ℚ) : ℚ := if Rat.blt q 0 then 0 else q

/-! ## A small backtracking regex matcher

Covers exactly the constructs used by the repository's patterns: literals
(case sensitive and insensitive), single-character classes, greedy `?`,
greedy and lazy `+` over a character class, greedy `*` over a class,
alternation, and capture groups. -/

inductive RE where
  | eps : RE
  | lit : List Char → RE
  | cls : (Char → Bool) → RE
  | seq : RE → RE → RE
  | alt : RE → RE → RE
  | opt : RE → RE
  | plusG : (Char → Bool) → RE
  | plusL : (Char → Bool) → RE
  | starG : (Char → Bool) → RE
  | grp : ℕ → RE → RE

/-- Captured groups of a single match. -/
abbrev Caps := List (ℕ × List Char)

abbrev ReRes := List Char × Caps

/-- Greedy one-or-more: try the longest run first, down to length 1. -/
def tryGreedy (k : List Char → Option ReRes) (s : List Char) : ℕ → Option ReRes
  | 0 => Option.none
  | n + 1 => (k (s.drop (n + 1))).orElse (fun _ => tryGreedy k s n)

/-- Lazy one-or-more: try length 1 first, up to the longest run. -/
def tryLazy (k : List Char → Option ReRes) (s : List Char) (maxLen : ℕ) : Option ReRes :=
  (List.range maxLen).findSome? (fun i => k (s.drop (i + 1)))

/-- Greedy zero-or-more: longest run first, down to length 0. -/
def tryStar (k : List Char → Option ReRes) (s : List Char) (maxLen : ℕ) : Option ReRes :=
  (List.range (maxLen + 1)).findSome? (fun i => k (s.drop (maxLen - i)))

/-- Backtracking matcher in continuation style; `k` receives the remaining
input and accumulated captures. -/
def reM : RE → List Char → Caps → (List Char → Caps → Option ReRes) → Option ReRes
  | .eps, s, caps, k => k s caps
  | .lit pat, s, caps, k =>
    if pat.isPrefixOf s then k (s.drop pat.length) caps else Option.none
  | .cls p, s, caps, k =>
    match s with
    | [] => Option.none
    | c :: t => if p c then k t caps else Option.none
  | .seq a b, s, caps, k => reM a s caps (fun s' caps' => reM b s' caps' k)
  | .alt a b, s, caps, k => (reM a s caps k).orElse (fun _ => reM b s caps k)
  | .opt r, s, caps, k => (reM r s caps k).orElse (fun _ => k s caps)
  | .plusG p, s, caps, k => tryGreedy (fun s' => k s' caps) s (s.takeWhile p).length
  | .plusL p, s, caps, k => tryLazy (fun s' => k s' caps) s (s.takeWhile p).length
  | .starG p, s, caps, k => tryStar (fun s' => k s' caps) s (s.takeWhile p).length
  | .grp n r, s, caps, k =>
    reM r s caps (fun s' caps' => k s' ((n, s.take (s.length - s'.length)) :: caps'))

/-- Anchored match at the current position (Python `re.match`). -/
def reMatchHere (re : RE) (s : List Char) : Option Caps :=
  (reM re s [] (fun rest caps => Option.some (rest, caps))).map (fun x => x.2)

/-- Source: `re.search`: leftmost match; returns (start, matched length, captures). -/
def reSearchAux (re : RE) : ℕ → List Char → Option (ℕ × ℕ × Caps)
  | i, s =>
    match reM re s [] (fun rest caps => Option.some (rest, caps)) with
    | Option.some (rest, caps) => Option.some (i, s.length - rest.length, caps)
    | Option.none =>
      match s with
      | [] => Option.none
      | _ :: t => reSearchAux re (i + 1) t

def reSearch (re : RE) (s : List Char) : Option (ℕ × ℕ × Caps) := reSearchAux re 0 s

def capsGet (caps : Caps) (n : ℕ) : List Char :=
  match caps.find? (fun p => p.1 == n) with
  | Option.some p => p.2
  | Option.none => []

/-- Source: `re.finditer`: all non-overlapping matches, scanning left to right.
`fuel` is an upper bound on the number of matches (callers pass
`length + 1`; every pattern in the sources consumes at least one char). -/
def reFindAll (re : RE) : ℕ → List Char → List Caps
  | 0, _ => []
  | fuel + 1, s =>
    match reSearch re s with
    | Option.none => []
    | Option.some (start, len, caps) =>
      caps :: reFindAll re fuel (s.drop (start + max len 1))

def reCat (l : List RE) : RE := l.foldr RE.seq RE.eps

def lits (s : String) : RE := .lit s.data

/-- Case-insensitive literal (for patterns compiled with `re.IGNORECASE`). -/
def ciLit : List Char → RE
  | [] => .eps
  | c :: t => .seq (.cls (fun x => x.toLower == c)) (ciLit t)

def alt3 (a b c : RE) : RE := .alt a (.alt b c)

/-! ## Python values, truthiness, coercions -/

/-- Events as they appear in `events_generated.json`, restricted to the
fields the engine code reads (`type`, `payload.appointment_id`,
`payload.patient_id`). -/
structure REvent where
  eid : String
  etype : String
  occurred_at : String
  payload_appointment_id : Option String
  payload_patient_id : Option String
deriving DecidableEq

/-- The Python values stored in an evaluation context dict. -/
inductive Value where
  | vnone : Value
  | vstr : String → Value
  | vnum : ℚ → Value
  | vbool : Bool → Value
  | vevents : List REvent → Value
deriving DecidableEq

/-- Python uncaught exceptions that can escape the embedded code. -/
inductive PyExc where
  | valueError : PyExc
  | typeError : PyExc
  | attributeError : PyExc
deriving DecidableEq

/-- Python truthiness for the values above. -/
def pyTruthy : Value → Bool
  | .vnone => false
  | .vstr s => s ≠ ""
  | .vnum q => !(q.num == 0)
  | .vbool b => b
  | .vevents es => !es.isEmpty

/-- Rendering of a rational in `str(...)`; numeric context fields are never
interpolated into any template of this repository, so only the integer case
is ever reached by the claims (Python would print floats as e.g. `6.0`). -/
def ratStr (q : ℚ) : String :=
  if q.den = 1 then toString q.num else toString q.num ++ "/" ++ toString q.den

/-- Python `str(...)` on context values. Event lists are never interpolated
by any template in the repository; their repr is abbreviated. -/
def pyStr : Value → String
  | .vnone => "None"
  | .vstr s => s
  | .vnum q => ratStr q
  | .vbool b => if b then "True" else "False"
  | .vevents _ => "[events]"

/-- Parse the body of a Python float literal: digits, optional fraction,
optional exponent. Empty digit sequences on both sides are rejected. -/
def parseFloatBody (l : List Char) : Option ℚ :=
  let intPart := l.takeWhile isDigitCh
  let rest1 := l.drop intPart.length
  let (fracPart, rest2) :=
    match rest1 with
    | '.' :: t => (t.takeWhile isDigitCh, t.drop (t.takeWhile isDigitCh).length)
    | _ => ([], rest1)
  if intPart.isEmpty && fracPart.isEmpty then Option.none
  else
    let mantissa : ℚ :=
      qdiv (natQ (digitsToNat (intPart ++ fracPart))) (natQ (10 ^ fracPart.length))
    match rest2 with
    | [] => Option.some mantissa
    | 'e' :: t => parseFloatExp mantissa t
    | 'E' :: t => parseFloatExp mantissa t
    | _ => Option.none
where
  parseFloatExp (m : ℚ) (t : List Char) : Option ℚ :=
    let (neg, t') :=
      match t with
      | '-' :: u => (true, u)
      | '+' :: u => (false, u)
      | u => (false, u)
    if t'.isEmpty || !(t'.all isDigitCh) then Option.none
    else
      let e := digitsToNat t'
      Option.some (if neg then qdiv m (natQ (10 ^ e)) else qmul m (natQ (10 ^ e)))

/-- Python `float(...)` on a string: strips whitespace, optional sign. -/
def pyFloatOfStr (s : String) : Option ℚ :=
  let l := (s.data.dropWhile isSpaceCh).reverse.dropWhile isSpaceCh |>.reverse
  match l with
  | '-' :: t => (parseFloatBody t).map qneg
  | '+' :: t => parseFloatBody t
  | t => parseFloatBody t

/-- Python `float(...)` on a context value: numbers and bools coerce,
non-numeric strings raise `ValueError`, `None` raises `TypeError`. -/
def pyFloat : Value → Except PyExc ℚ
  | .vnum q => .ok q
  | .vbool b => .ok (if b then 1 else 0)
  | .vstr s =>
    match pyFloatOfStr s with
    | Option.some q => .ok q
    | Option.none => .error PyExc.valueError
  | .vnone => .error PyExc.typeError
  | .vevents _ => .error PyExc.typeError

/-- Python `==` on context values (`True == 1` included). -/
def pyEq : Value → Value → Bool
  | .vnone, .vnone => true
  | .vstr a, .vstr b => a == b
  | .vnum a, .vnum b => qeq a b
  | .vbool a, .vbool b => a == b
  | .vbool a, .vnum b => qeq (if a then (1 : ℚ) else 0) b
  | .vnum a, .vbool b => qeq a (if b then (1 : ℚ) else 0)
  | .vevents a, .vevents b => a == b
  | _, _ => false

/-- An evaluation context: a Python dict as an association list. -/
abbrev Ctx := List (String × Value)

/-- Source: `context.get(k)`: `None` when the key is absent. -/
def ctxGet (ctx : Ctx) (k : String) : Value :=
  match ctx.find? (fun p => p.1 == k) with
  | Option.some p => p.2
  | Option.none => Value.vnone

/-! ## Timestamps (`datetime.fromisoformat`, differences, `strftime`) -/

structure DateTimeV where
  year : ℕ
  month : ℕ
  day : ℕ
  hour : ℕ
  minute : ℕ
  second : ℕ
deriving DecidableEq

def isLeap (y : ℕ) : Bool := (y % 4 = 0 && y % 100 ≠ 0) || y % 400 = 0

def daysInMonth (y m : ℕ) : ℕ :=
  if m = 2 then (if isLeap y then 29 else 28)
  else if m = 4 || m = 6 || m = 9 || m = 11 then 30
  else 31

/-- Days since the civil epoch 0000-03-01 (Gregorian, valid for the years
in the datasets); only differences of this count are ever used. -/
def daysFromCivil (y m d : ℕ) : ℕ :=
  let y' := if m ≤ 2 then y - 1 else y
  let era := y' / 400
  let yoe := y' % 400
  let mp := if m > 2 then m - 3 else m + 9
  let doy := (153 * mp + 2) / 5 + d - 1
  let doe := yoe * 365 + yoe / 4 - yoe / 100 + doy
  era * 146097 + doe

def toSecs (t : DateTimeV) : ℤ :=
  (daysFromCivil t.year t.month t.day : ℤ) * 86400
    + t.hour * 3600 + t.minute * 60 + t.second

/-- Parse `NN` (exactly two digits). -/
def parse2 (l : List Char) : Option ℕ :=
  match l with
  | [a, b] => if isDigitCh a && isDigitCh b then Option.some (digitsToNat [a, b]) else Option.none
  | _ => Option.none

def parse4 (l : List Char) : Option ℕ :=
  match l with
  | [a, b, c, d] =>
    if [a, b, c, d].all isDigitCh then Option.some (digitsToNat [a, b, c, d]) else Option.none
  | _ => Option.none

def parseHMS (l : List Char) : Option (ℕ × ℕ × ℕ) :=
  match l with
  | [h1, h2, ':', m1, m2] => do
    let h ← parse2 [h1, h2]
    let m ← parse2 [m1, m2]
    if h < 24 && m < 60 then Option.some (h, m, 0) else Option.none
  | [h1, h2, ':', m1, m2, ':', s1, s2] => do
    let h ← parse2 [h1, h2]
    let m ← parse2 [m1, m2]
    let s ← parse2 [s1, s2]
    if h < 24 && m < 60 && s < 60 then Option.some (h, m, s) else Option.none
  | _ => Option.none

/-- Source: `datetime.fromisoformat` for the naive timestamp shapes
`YYYY-MM-DD`, `YYYY-MM-DDTHH:MM`, `YYYY-MM-DDTHH:MM:SS` used by the data.
Timezone-aware or otherwise non-conforming strings yield `none`, which at
every call site lands in the same fallback branch as the Python exception
(aware/naive subtraction also raises there). -/
def parseIso (s : String) : Option DateTimeV :=
  match s.data with
  | y1 :: y2 :: y3 :: y4 :: '-' :: m1 :: m2 :: '-' :: d1 :: d2 :: rest => do
    let y ← parse4 [y1, y2, y3, y4]
    let m ← parse2 [m1, m2]
    let d ← parse2 [d1, d2]
    if 1 ≤ m && m ≤ 12 && 1 ≤ d && d ≤ daysInMonth y m then
      match rest with
      | [] => Option.some ⟨y, m, d, 0, 0, 0⟩
      | 'T' :: tl => do
        let (h, mi, se) ← parseHMS tl
        Option.some ⟨y, m, d, h, mi, se⟩
      | _ => Option.none
    else Option.none
  | _ => Option.none

def monthAbbrev (m : ℕ) : String :=
  (["Jan", "Feb", "Mar", "Apr", "May", "Jun", "Jul", "Aug", "Sep", "Oct", "Nov", "Dec"]).getD
    (m - 1) "?"

def twoDigits (n : ℕ) : String := if n < 10 then "0" ++ toString n else toString n

/-- Source: `strftime("%b %d, %I:%M %p")`. -/
def strftimeBD (t : DateTimeV) : String :=
  let h12 := if t.hour % 12 = 0 then 12 else t.hour % 12
  let ap := if t.hour < 12 then "AM" else "PM"
  monthAbbrev t.month ++ " " ++ twoDigits t.day ++ ", " ++ twoDigits h12 ++ ":"
    ++ twoDigits t.minute ++ " " ++ ap

example : parseIso "2025-09-10T12:00:00" =
    Option.some ⟨2025, 9, 10, 12, 0, 0⟩ := by decide
example : parseIso "2025-09-10T12:00:00Z" = Option.none := by decide
example : parseIso "2025-09-10" = Option.some ⟨2025, 9, 10, 0, 0, 0⟩ := by decide
example : toSecs ⟨2025, 9, 11, 12, 0, 0⟩ - toSecs ⟨2025, 9, 10, 12, 0, 0⟩ = 86400 := by decide

/-! ## `LLM_Rules_Engine.py`: data model of parsed rules -/

inductive ConditionType where
  | RISK_LEVEL | TIME_BASED | STATUS | LANGUAGE | APPOINTMENT_TYPE | LOCATION | PRACTICE
deriving DecidableEq

inductive ActionType where
  | SMS | EMAIL | CALL
deriving DecidableEq

structure ParsedCondition where
  ctype : ConditionType
  field : String
  op : String
  value : Value
  confidence : ℚ
deriving DecidableEq

/-- An action template: a plain string, or the `{'subject','body'}` dict
built for EMAIL actions. -/
inductive Tmpl where
  | tstr : String → Tmpl
  | tdict : String → String → Tmpl
deriving DecidableEq

structure ParsedAction where
  atype : ActionType
  template : Tmpl
  custom_message : Option String
  subject : Option String
deriving DecidableEq

structure ParsedRule where
  conditions : List ParsedCondition
  actions : List ParsedAction
  original_text : String
  confidence : ℚ
deriving DecidableEq

/-! ## `SemanticRuleParser` -/

/-- Source: `r'if\s+(.+?)\s+then\s+(.+)'`. -/
def ifThenRE : RE :=
  reCat [lits "if", .plusG isSpaceCh, .grp 1 (.plusL notNL), .plusG isSpaceCh,
    lits "then", .plusG isSpaceCh, .grp 2 (.plusG notNL)]

def searchIfThen (s : List Char) : Option (List Char × List Char) :=
  (reSearch ifThenRE s).map (fun x => (capsGet x.2.2 1, capsGet x.2.2 2))

/-- Source: `r'within (\d+) hours?'`. -/
def reWithinHours : RE :=
  reCat [lits "within ", .grp 1 (.plusG isDigitCh), lits " hour", .opt (lits "s")]

/-- Source: `r'(\d+) hours? (?:or less|before)'`. -/
def reHoursOrLess : RE :=
  reCat [.grp 1 (.plusG isDigitCh), lits " hour", .opt (lits "s"), lits " ",
    .alt (lits "or less") (lits "before")]

/-- Source: `r'appointment (?:is )?tomorrow'`. -/
def reApptTomorrow : RE := reCat [lits "appointment ", .opt (lits "is "), lits "tomorrow"]

/-- Source: `r'appointment (?:is )?soon'`. -/
def reApptSoon : RE := reCat [lits "appointment ", .opt (lits "is "), lits "soon"]

def riskCondition (s : List Char) (lv : String) : ParsedCondition :=
  ⟨.RISK_LEVEL, "no_show_risk", "equals", .vstr lv,
    if containsSub ("risk is " ++ lv).data s then mkRat 9 10 else mkRat 7 10⟩

/-- Source: `_parse_conditions_semantic` (input is the already-lowercased
conditions clause). -/
def parseConditionsSemantic (s : List Char) : List ParsedCondition :=
  (if containsSub "risk".data s || containsSub "likelihood".data s then
    ((["high", "medium", "low"].filter (fun lv => containsSub lv.data s)).map
      (riskCondition s))
  else []) ++
  (match reSearch reWithinHours s with
   | Option.some x =>
     [⟨.TIME_BASED, "hours_until", "<=", .vnum (natQ (digitsToNat (capsGet x.2.2 1))), mkRat 9 10⟩]
   | Option.none => []) ++
  (match reSearch reHoursOrLess s with
   | Option.some x =>
     [⟨.TIME_BASED, "hours_until", "<=", .vnum (natQ (digitsToNat (capsGet x.2.2 1))), mkRat 9 10⟩]
   | Option.none => []) ++
  (if (reSearch reApptTomorrow s).isSome then
    [⟨.TIME_BASED, "hours_until", "<=", .vnum 24, mkRat 8 10⟩]
  else []) ++
  (if (reSearch reApptSoon s).isSome then
    [⟨.TIME_BASED, "hours_until", "<=", .vnum 48, mkRat 8 10⟩]
  else []) ++
  (if containsSub "intake".data s then
    (if containsSub "incomplete".data s || containsSub "missing".data s
        || containsSub "not".data s then
      [⟨.STATUS, "intake_status", "equals", .vstr "INCOMPLETE", mkRat 8 10⟩]
    else if containsSub "complete".data s then
      [⟨.STATUS, "intake_status", "equals", .vstr "COMPLETE", mkRat 8 10⟩]
    else [])
  else []) ++
  (if containsSub "spanish".data s || containsSub "es".data s then
    [⟨.LANGUAGE, "patient_language", "equals", .vstr "es", mkRat 9 10⟩]
  else if containsSub "english".data s || containsSub "en".data s then
    [⟨.LANGUAGE, "patient_language", "equals", .vstr "en", mkRat 9 10⟩]
  else []) ++
  ((["oncology", "ortho", "mri", "ob/gyn", "pt session"].filter
      (fun t => containsSub t.data s)).map (fun t =>
    ⟨.APPOINTMENT_TYPE, "appointment_type", "contains", .vstr (pyTitle t), mkRat 8 10⟩))

/-- Quoted-capture pattern `pre["']([^"']+)["']` (case sensitive; the LLM
parser applies it to already-lowercased text). -/
def reQuoted (pre : String) : RE :=
  reCat [lits pre, .cls isQuoteCh, .grp 1 (.plusG notQuoteCh), .cls isQuoteCh]

/-- Source: `_extract_custom_message`. -/
def extractCustomMessage (s : List Char) : Option String :=
  [reQuoted "saying ", reQuoted "message ", reQuoted "with "].findSome?
    (fun re => (reSearch re s).map (fun x => (⟨capsGet x.2.2 1⟩ : String)))

/-- Source: `_extract_subject`. -/
def extractSubject (s : List Char) : Option String :=
  (reSearch (reQuoted "subject ") s).map (fun x => (⟨capsGet x.2.2 1⟩ : String))

/-- Tone classification inside `_generate_smart_template`. -/
def toneOf (s : List Char) : String :=
  if containsSub "urgent".data s || containsSub "important".data s
      || containsSub "asap".data s then "urgent"
  else if containsSub "spanish".data s || containsSub "español".data s then "spanish"
  else if containsSub "reminder".data s || containsSub "remind".data s then "reminder"
  else "default"

/-- The `base_templates` table of `_generate_smart_template`. -/
def smartTemplate (actionType : String) (s : List Char) : String :=
  let tone := toneOf s
  if actionType = "SMS" then
    if tone = "urgent" then
      "URGENT: {patient_first_name}, please {action_needed} for your {appointment_type} appointment."
    else if tone = "spanish" then
      "Hola {patient_first_name}, recordatorio sobre su cita de {appointment_type}."
    else if tone = "reminder" then
      "Hi {patient_first_name}, reminder about your {appointment_type} appointment at {practice_name}."
    else
      "Hi {patient_first_name}, this is a reminder about your {appointment_type} appointment."
  else if actionType = "EMAIL" then
    if tone = "urgent" then
      "Dear {patient_first_name},\n\nThis is an urgent reminder about your {appointment_type} appointment.\n\nPlease contact us immediately.\n\nBest regards,\n{practice_name}"
    else if tone = "spanish" then
      "Estimado/a {patient_first_name},\n\nEste es un recordatorio sobre su cita de {appointment_type}.\n\nGracias,\n{practice_name}"
    else if tone = "reminder" then
      "Dear {patient_first_name},\n\nThis is a friendly reminder about your upcoming {appointment_type} appointment.\n\nThank you,\n{practice_name}"
    else
      "Dear {patient_first_name},\n\nThis is a reminder about your {appointment_type} appointment.\n\nBest regards,\n{practice_name}"
  else
    if tone = "urgent" then
      "Hi {patient_first_name}, this is {practice_name} calling urgently about your {appointment_type} appointment."
    else if tone = "spanish" then
      "Hola {patient_first_name}, le llama {practice_name} sobre su cita de {appointment_type}."
    else if tone = "reminder" then
      "Hi {patient_first_name}, this is {practice_name} calling to remind you about your {appointment_type} appointment."
    else
      "Hi {patient_first_name}, this is {practice_name} calling about your {appointment_type} appointment."

/-- Source: `_parse_actions_semantic` (input is the already-lowercased actions
clause). -/
def parseActionsSemantic (s : List Char) : List ParsedAction :=
  (if containsSub "sms".data s || containsSub "text".data s
      || containsSub "message".data s then
    let cm := extractCustomMessage s
    [⟨.SMS, .tstr (cm.getD (smartTemplate "SMS" s)), cm, Option.none⟩]
  else []) ++
  (if containsSub "email".data s then
    let cm := extractCustomMessage s
    let subj := (extractSubject s).getD "Appointment Reminder"
    [⟨.EMAIL, .tdict subj (cm.getD (smartTemplate "EMAIL" s)), cm, Option.some subj⟩]
  else []) ++
  (if containsSub "call".data s || containsSub "phone".data s then
    let cm := extractCustomMessage s
    [⟨.CALL, .tstr (cm.getD (smartTemplate "CALL" s)), cm, Option.none⟩]
  else [])

/-- Source: `min([c.confidence ...]) if conditions else 0.5`. -/
def minConfOf (conds : List ParsedCondition) : ℚ :=
  match conds with
  | [] => mkRat 1 2
  | c :: rest => rest.foldl (fun a x => min a x.confidence) c.confidence

/-- Source: `SemanticRuleParser.semantic_parse`. -/
def semanticParse (rule_text : String) : Option ParsedRule :=
  let t := pyLower (pyStrip rule_text)
  match searchIfThen t.data with
  | Option.none => Option.none
  | Option.some (condTxt, actTxt) =>
    let conditions := parseConditionsSemantic condTxt
    let actions := parseActionsSemantic actTxt
    Option.some ⟨conditions, actions, t, minConfOf conditions⟩

example :
    (semanticParse "if x then send sms").map ParsedRule.conditions = Option.some [] := by
  decide

example :
    (semanticParse "hello world") = Option.none := by decide

/-! ## `RuleEngine` (LLM engine): condition evaluation -/

/-- Source: `RuleEngine._evaluate_condition`. A non-numeric coercion in the
`<=`/`>=` branches propagates the `float(...)` exception (there is no
try/except around it in the source). -/
def evalCondition (c : ParsedCondition) (ctx : Ctx) : Except PyExc Bool :=
  let cv := ctxGet ctx c.field
  if cv = Value.vnone then .ok false
  else if c.op = "equals" then
    .ok (pyLower (pyStr cv) == pyLower (pyStr c.value))
  else if c.op = "contains" then
    .ok (containsSub (pyLower (pyStr c.value)).data (pyLower (pyStr cv)).data)
  else if c.op = "<=" then
    match pyFloat cv, pyFloat c.value with
    | .error e, _ => .error e
    | .ok _, .error e => .error e
    | .ok a, .ok b => .ok (qble a b)
  else if c.op = ">=" then
    match pyFloat cv, pyFloat c.value with
    | .error e, _ => .error e
    | .ok _, .error e => .error e
    | .ok a, .ok b => .ok (qble b a)
  else .ok false

/-- The `for condition in parsed_rule['conditions']` accumulation loop of
`_evaluate_appointment`: total matched confidence and matched count. -/
def condFold (ctx : Ctx) : List ParsedCondition → Except PyExc (ℚ × ℕ)
  | [] => .ok (0, 0)
  | c :: rest =>
    match evalCondition c ctx with
    | .error e => .error e
    | .ok b =>
      match condFold ctx rest with
      | .error e => .error e
      | .ok (t, m) => .ok (if b then (qadd t c.confidence, m + 1) else (t, m))

/-- Whether a single condition tests true without raising. -/
def condHolds (ctx : Ctx) (c : ParsedCondition) : Bool :=
  match evalCondition c ctx with
  | .ok true => true
  | _ => false

def satisfiedConds (ctx : Ctx) (conds : List ParsedCondition) : List ParsedCondition :=
  conds.filter (condHolds ctx)

/-! ## Action generation (`_generate_actions`) -/

inductive Triggered where
  | sms : Value → String → Triggered
  | email : Value → String → String → Triggered
  | call : Value → String → Triggered
deriving DecidableEq

/-- Read a `{field}` placeholder name up to the closing brace. -/
def readKey : List Char → Option (List Char × List Char)
  | [] => Option.none
  | '\x7d' :: t => Option.some ([], t)
  | '\x7b' :: _ => Option.none
  | c :: t => (readKey t).map (fun x => (c :: x.1, x.2))

/-- Python `str.format(**context)`: substitutes `{field}` placeholders,
`KeyError` (unknown field) and brace errors yield `none`. `fuel` bounds the
recursion; callers pass `length + 1`, which always suffices since every
step consumes at least one input character. -/
def pyFormatAux (ctx : Ctx) : ℕ → List Char → Option (List Char)
  | 0, _ => Option.none
  | _, [] => Option.some []
  | fuel + 1, '\x7b' :: '\x7b' :: t => (pyFormatAux ctx fuel t).map (fun r => '\x7b' :: r)
  | fuel + 1, '\x7d' :: '\x7d' :: t => (pyFormatAux ctx fuel t).map (fun r => '\x7d' :: r)
  | fuel + 1, '\x7b' :: t =>
    match readKey t with
    | Option.none => Option.none
    | Option.some (k, rest) =>
      match ctx.find? (fun p => p.1 == (⟨k⟩ : String)) with
      | Option.some p => (pyFormatAux ctx fuel rest).map (fun r => (pyStr p.2).data ++ r)
      | Option.none => Option.none
  | _, '\x7d' :: _ => Option.none
  | fuel + 1, c :: t => (pyFormatAux ctx fuel t).map (fun r => c :: r)

def pyFormat (tpl : String) (ctx : Ctx) : Option String :=
  (pyFormatAux ctx (tpl.data.length + 1) tpl.data).map (fun l => (⟨l⟩ : String))

/-- Source: `action.subject or "Appointment Reminder"` (Python `or` truthiness). -/
def pyOrStr (o : Option String) (d : String) : String :=
  match o with
  | Option.some s => if s = "" then d else s
  | Option.none => d

/-- One iteration of the action loop in `_generate_actions`; `none` models
the `except Exception: continue` path. -/
def genOne (ctx : Ctx) (a : ParsedAction) : Option Triggered :=
  match a.atype with
  | .SMS =>
    match a.template with
    | .tstr t => (pyFormat t ctx).map (fun msg => .sms (ctxGet ctx "patient_phone") msg)
    | .tdict _ _ => Option.none
  | .EMAIL =>
    match a.template with
    | .tdict s b =>
      match pyFormat s ctx, pyFormat b ctx with
      | Option.some subj, Option.some body =>
        Option.some (.email (ctxGet ctx "patient_email") subj body)
      | _, _ => Option.none
    | .tstr t =>
      (pyFormat t ctx).map (fun body =>
        .email (ctxGet ctx "patient_email") (pyOrStr a.subject "Appointment Reminder") body)
  | .CALL =>
    match a.template with
    | .tstr t => (pyFormat t ctx).map (fun sc => .call (ctxGet ctx "patient_phone") sc)
    | .tdict _ _ => Option.none

/-- Source: `RuleEngine._generate_actions`. -/
def generateActions (actions : List ParsedAction) (ctx : Ctx) : List Triggered :=
  if pyTruthy (ctxGet ctx "patient_dnc") then []
  else actions.filterMap (genOne ctx)

/-! ## Datasets and `_build_context` -/

structure Patient where
  pid : String
  first_name : String
  last_name : String
  phone : String
  email : String
  language : String
  dnc : Bool
  comm_sms : Bool
  comm_email : Bool
  comm_call : Bool
deriving DecidableEq

structure Practice where
  prid : String
  name : String
  timezone : String
  default_sender_phone : String
  reply_to_email : String
  domain : String
deriving DecidableEq

structure Appointment where
  aid : String
  patient_id : String
  practice_id : String
  start_time : String
  status : String
  atype : String
  location : String
  no_show_risk : String
deriving DecidableEq

structure Intake where
  appointment_id : String
  status : String
  last_updated : String
  link : String
deriving DecidableEq

/-- The engine's `data_cache` (records keyed by id on lookup). -/
structure DataCache where
  practices : List Practice
  patients : List Patient
  appointments : List Appointment
  intakes : List Intake
  events : List REvent
deriving DecidableEq

def findPatient (d : DataCache) (i : String) : Option Patient :=
  d.patients.find? (fun p => p.pid == i)

def findPractice (d : DataCache) (i : String) : Option Practice :=
  d.practices.find? (fun p => p.prid == i)

def findAppt (d : DataCache) (i : String) : Option Appointment :=
  d.appointments.find? (fun a => a.aid == i)

def findIntake (d : DataCache) (i : String) : Option Intake :=
  d.intakes.find? (fun x => x.appointment_id == i)

/-- The `hours_until` try-block of `_build_context`:
`max(0, (appt − current)/3600)` with fallback 24 on any parse failure. -/
def llmHoursUntil (current_time start_time : String) : ℚ :=
  match parseIso (pyReplace current_time "Z" ""), parseIso start_time with
  | Option.some c, Option.some a =>
    qmax0 (qdiv (intQ (toSecs a - toSecs c)) (natQ 3600))
  | _, _ => 24

/-- The `formatted_time` try-block of `_build_context`. -/
def llmFormattedTime (start_time : String) : String :=
  match parseIso start_time with
  | Option.some a => strftimeBD a
  | Option.none => "your appointment time"

def optStrV (o : Option String) : Value :=
  match o with
  | Option.some s => .vstr s
  | Option.none => .vstr ""

/-- Source: `RuleEngine._build_context`. -/
def buildContext (d : DataCache) (appt_id : String) (current_time : String) : Option Ctx :=
  match findAppt d appt_id with
  | Option.none => Option.none
  | Option.some appt =>
    let patient := findPatient d appt.patient_id
    let practice := findPractice d appt.practice_id
    let intake := findIntake d appt_id
    let related := d.events.filter (fun e =>
      e.payload_appointment_id == Option.some appt_id
        || e.payload_patient_id == Option.some appt.patient_id)
    Option.some [
      ("appointment_id", .vstr appt_id),
      ("patient_id", match patient with
        | Option.some p => .vstr p.pid
        | Option.none => .vnone),
      ("patient_first_name", optStrV (patient.map Patient.first_name)),
      ("patient_last_name", optStrV (patient.map Patient.last_name)),
      ("patient_phone", optStrV (patient.map Patient.phone)),
      ("patient_email", optStrV (patient.map Patient.email)),
      ("patient_language", optStrV (patient.map Patient.language)),
      ("patient_dnc", .vbool ((patient.map Patient.dnc).getD false)),
      ("patient_comm_sms", .vbool ((patient.map Patient.comm_sms).getD false)),
      ("patient_comm_email", .vbool ((patient.map Patient.comm_email).getD false)),
      ("patient_comm_call", .vbool ((patient.map Patient.comm_call).getD false)),
      ("practice_name", optStrV (practice.map Practice.name)),
      ("practice_timezone", optStrV (practice.map Practice.timezone)),
      ("practice_phone", optStrV (practice.map Practice.default_sender_phone)),
      ("practice_email", optStrV (practice.map Practice.reply_to_email)),
      ("practice_domain", optStrV (practice.map Practice.domain)),
      ("appointment_type", .vstr appt.atype),
      ("appointment_status", .vstr appt.status),
      ("appointment_location", .vstr appt.location),
      ("appointment_start_time", .vstr appt.start_time),
      ("appointment_formatted_time", .vstr (llmFormattedTime appt.start_time)),
      ("no_show_risk", .vstr appt.no_show_risk),
      ("intake_status", .vstr ((intake.map Intake.status).getD "INCOMPLETE")),
      ("intake_last_updated", .vstr ((intake.map Intake.last_updated).getD "")),
      ("intake_link", .vstr ((intake.map Intake.link).getD "")),
      ("hours_until", .vnum (llmHoursUntil current_time appt.start_time)),
      ("related_events", .vevents related),
      ("recent_events", .vevents (related.filter (fun e =>
        e.etype == "call.missed" || e.etype == "intake.updated"
          || e.etype == "appointment.updated")))]

/-! ## `_evaluate_appointment` and `evaluate_rule` -/

structure RuleMatch where
  appointment_id : String
  patient_id : Value
  confidence : ℚ
  triggered_actions : List Triggered
deriving DecidableEq

/-- The part of `_evaluate_appointment` after the context is built. -/
def evalWithCtx (rule : ParsedRule) (appt_id : String) (ctx : Ctx) :
    Except PyExc (Option RuleMatch) :=
  match condFold ctx rule.conditions with
  | .error e => .error e
  | .ok tm =>
    if tm.2 = 0 then .ok Option.none
    else
      .ok (Option.some ⟨appt_id, ctxGet ctx "patient_id",
        qmul (qdiv tm.1 (natQ rule.conditions.length))
          (qdiv (natQ tm.2) (natQ rule.conditions.length)),
        generateActions rule.actions ctx⟩)

/-- Source: `RuleEngine._evaluate_appointment`. -/
def evalAppointment (d : DataCache) (appt_id : String) (rule : ParsedRule)
    (current_time : String) : Except PyExc (Option RuleMatch) :=
  match buildContext d appt_id current_time with
  | Option.none => .ok Option.none
  | Option.some ctx => evalWithCtx rule appt_id ctx

/-- The result-collection loop of `evaluate_rule`: futures are submitted
and consumed in appointment iteration order; collection stops once
`limit * 2` matches have been appended. `count` is the number collected so
far. -/
def collectMatches (d : DataCache) (rule : ParsedRule) (current_time : String)
    (bound : ℕ) : List String → ℕ → Except PyExc (List RuleMatch)
  | [], _ => .ok []
  | i :: rest, count =>
    match evalAppointment d i rule current_time with
    | .error e => .error e
    | .ok Option.none => collectMatches d rule current_time bound rest count
    | .ok (Option.some m) =>
      if count + 1 ≥ bound then .ok [m]
      else
        match collectMatches d rule current_time bound rest (count + 1) with
        | .error e => .error e
        | .ok more => .ok (m :: more)

/-- The comparator of `matches.sort(key=lambda x: x.confidence, reverse=True)`:
Python's stable sort keeps `a` before `b` when the key of `a` is ≥. -/
def confLE (a b : RuleMatch) : Bool := qble b.confidence a.confidence

/-- Stable insertion into a descending-confidence list: the new element
goes after every earlier element of greater-or-equal confidence. -/
def insDesc (x : RuleMatch) : List RuleMatch → List RuleMatch
  | [] => [x]
  | y :: t => if confLE x y then x :: y :: t else y :: insDesc x t

/-- Stable descending sort by confidence (the behaviour of Python's
`list.sort(key=..., reverse=True)`, which is stable). -/
def sortDesc : List RuleMatch → List RuleMatch
  | [] => []
  | x :: t => insDesc x (sortDesc t)

def fixedNow : String := "2025-09-10T12:00:00Z"

/-- Source: `RuleEngine.evaluate_rule` (first call; the per-instance cache returns
the identical value on repeats). -/
def evaluateRule (d : DataCache) (rule_text : String) (limit : ℕ) :
    Except PyExc (List RuleMatch) :=
  match semanticParse rule_text with
  | Option.none => .ok []
  | Option.some rule =>
    match collectMatches d rule fixedNow (limit * 2)
        (d.appointments.map Appointment.aid) 0 with
    | .error e => .error e
    | .ok ms => .ok ((sortDesc ms).take limit)

/-! ## `syntax_rules_engine.py`: `simple_datetime_diff` -/

/-- Source: `simple_datetime_diff`: note the source's
`current_str.replace('Z','').split('+')[0].split('-')[0]` truncates a
dashed ISO date to its year before the `'T' in ...` check. -/
def simpleDatetimeDiff (current_str appt_str : String) : ℚ :=
  let current_clean : String :=
    ⟨takeUntilSub "-".data (takeUntilSub "+".data (pyReplace current_str "Z" "").data)⟩
  if !(current_clean.data.contains 'T') then 24
  else
    match parseIso current_clean with
    | Option.none => 24
    | Option.some cdt =>
      if !(appt_str.data.contains 'T') then 24
      else
        match parseIso appt_str with
        | Option.none => 24
        | Option.some adt => qmax0 (qdiv (intQ (toSecs adt - toSecs cdt)) (natQ 3600))

/-! ## `syntax_rules_engine.py`: rule evaluation over a conditions dict -/

/-- A condition value in the syntax engine: either a plain value or an
operator dict such as `{"<=": 24}`. -/
inductive SCondVal where
  | plain : Value → SCondVal
  | ops : List (String × ℚ) → SCondVal
deriving DecidableEq

/-- Source: `isinstance(context_value, (int, float))` (Python bools are ints). -/
def isNumLike : Value → Bool
  | .vnum _ => true
  | .vbool _ => true
  | _ => false

def numVal : Value → ℚ
  | .vnum q => q
  | .vbool b => if b then 1 else 0
  | _ => 0

/-- The per-condition body of the syntax engine's `evaluate_rule`. -/
def synCondOk (cv : Value) : SCondVal → Bool
  | .ops l =>
    l.all (fun p =>
      if p.1 = "<=" then isNumLike cv && qble (numVal cv) p.2
      else if p.1 = ">=" then isNumLike cv && qble p.2 (numVal cv)
      else true)
  | .plain w =>
    match cv, w with
    | .vstr a, .vstr b =>
      containsSub (pyLower b).data (pyLower a).data || pyLower a == pyLower b
    | v', w' => pyEq v' w'

/-- Source: `syntax_rules_engine.evaluate_rule`: vacuous true on an empty
conditions dict; a `None`/absent context value fails the rule. -/
def synEvaluateRule (conditions : List (String × SCondVal)) (ctx : Ctx) : Bool :=
  if conditions.isEmpty then true
  else
    conditions.all (fun kc =>
      match ctxGet ctx kc.1 with
      | .vnone => false
      | v => synCondOk v kc.2)

/-! ## `NLPRuleParser` (syntax engine) -/

structure SynPat where
  re : RE
  field : String
  conv : List Char → SCondVal

def digits1 : RE := .plusG isDigitCh

def dotPlus : RE := .plusG notNL

def word1 : RE := .plusG isWordCh

/-- Source: `hours?`. -/
def hoursOpt : RE := .seq (lits " hour") (.opt (lits "s"))

def plainStr (s : String) : SCondVal := .plain (.vstr s)

def leNat (g : List Char) : SCondVal := .ops [("<=", natQ (digitsToNat g))]

def riskAlt : RE := alt3 (lits "high") (lits "medium") (lits "low")

def langAlt : RE := .alt (lits "english") (alt3 (lits "spanish") (lits "en") (lits "es"))

/-- Source: `lambda x: x[:2] if len(x) > 2 else x` (note: maps `"spanish"` to
`"sp"`, faithfully to the source). -/
def langConv (g : List Char) : SCondVal :=
  plainStr (if g.length > 2 then (⟨g.take 2⟩ : String) else (⟨g⟩ : String))

/-- The `condition_patterns` table of `NLPRuleParser`, in source order. -/
def synCondPats : List SynPat := [
  ⟨reCat [lits "no", .opt (.cls notNL), lits "show risk is ", .grp 1 riskAlt],
    "no_show_risk", fun g => plainStr ⟨g⟩⟩,
  ⟨lits "high risk", "no_show_risk", fun _ => plainStr "high"⟩,
  ⟨lits "medium risk", "no_show_risk", fun _ => plainStr "medium"⟩,
  ⟨lits "low risk", "no_show_risk", fun _ => plainStr "low"⟩,
  ⟨reCat [lits "risk is ", .grp 1 riskAlt], "no_show_risk", fun g => plainStr ⟨g⟩⟩,
  ⟨reCat [lits "appointment is within ", .grp 1 digits1, hoursOpt], "hours_until", leNat⟩,
  ⟨reCat [lits "within ", .grp 1 digits1, hoursOpt], "hours_until", leNat⟩,
  ⟨reCat [.grp 1 digits1, hoursOpt, lits " ", .opt (lits "or less "),
      alt3 (lits "until") (lits "before") (lits "away")], "hours_until", leNat⟩,
  ⟨reCat [lits "appointment ", .opt (lits "is "), .opt (lits "in "),
      .grp 1 digits1, hoursOpt], "hours_until", leNat⟩,
  ⟨reCat [lits "appointment ", .opt (lits "is "), lits "tomorrow"], "hours_until",
    fun _ => .ops [("<=", 24)]⟩,
  ⟨reCat [lits "appointment ", .opt (lits "is "), lits "soon"], "hours_until",
    fun _ => .ops [("<=", 48)]⟩,
  ⟨reCat [lits "less than ", .grp 1 digits1, hoursOpt], "hours_until", leNat⟩,
  ⟨reCat [lits "intake is ", .grp 1 (.alt (lits "incomplete") (lits "complete"))],
    "intake_status", fun g => plainStr (pyUpper ⟨g⟩)⟩,
  ⟨reCat [lits "intake ", .opt (lits "form "), .opt (lits "not "),
      alt3 (lits "filled") (lits "submitted") (lits "completed")], "intake_status",
    fun _ => plainStr "INCOMPLETE"⟩,
  ⟨reCat [lits "intake ", .opt (lits "form "), .opt (lits "is "), lits "incomplete"],
    "intake_status", fun _ => plainStr "INCOMPLETE"⟩,
  ⟨lits "incomplete intake", "intake_status", fun _ => plainStr "INCOMPLETE"⟩,
  ⟨lits "missing intake", "intake_status", fun _ => plainStr "INCOMPLETE"⟩,
  ⟨reCat [lits "intake ", .opt (lits "form "), .opt (lits "is "), lits "complete"],
    "intake_status", fun _ => plainStr "COMPLETE"⟩,
  ⟨lits "completed intake", "intake_status", fun _ => plainStr "COMPLETE"⟩,
  ⟨reCat [lits "patient speaks ", .grp 1 langAlt], "patient_language", langConv⟩,
  ⟨reCat [.alt (lits "speaks ") (lits "language is "), .grp 1 langAlt],
    "patient_language", langConv⟩,
  ⟨reCat [lits "spanish", .opt (.cls notNL), lits "speaking"], "patient_language",
    fun _ => plainStr "es"⟩,
  ⟨reCat [lits "english", .opt (.cls notNL), lits "speaking"], "patient_language",
    fun _ => plainStr "en"⟩,
  ⟨reCat [lits "appointment type ", .alt (lits "is ") (lits "contains "),
      .grp 1 dotPlus], "appointment_type", fun g => plainStr (pyStrip ⟨g⟩)⟩,
  ⟨reCat [.alt (lits "type is ") (lits "type contains "), .grp 1 dotPlus],
    "appointment_type", fun g => plainStr (pyStrip ⟨g⟩)⟩,
  ⟨lits "oncology", "appointment_type", fun _ => plainStr "Oncology"⟩,
  ⟨lits "ortho", "appointment_type", fun _ => plainStr "Ortho"⟩,
  ⟨lits "mri", "appointment_type", fun _ => plainStr "MRI"⟩,
  ⟨reCat [lits "appointment status is ", .grp 1 word1], "appointment_status",
    fun g => plainStr (pyUpper ⟨g⟩)⟩,
  ⟨reCat [lits "status is ", .grp 1 word1], "appointment_status",
    fun g => plainStr (pyUpper ⟨g⟩)⟩,
  ⟨lits "scheduled appointment", "appointment_status", fun _ => plainStr "SCHEDULED"⟩,
  ⟨lits "cancelled appointment", "appointment_status", fun _ => plainStr "CANCELLED"⟩,
  ⟨lits "completed appointment", "appointment_status", fun _ => plainStr "COMPLETED"⟩,
  ⟨reCat [lits "location is ", .grp 1 dotPlus], "appointment_location",
    fun g => plainStr (pyStrip ⟨g⟩)⟩,
  ⟨reCat [lits "in ", .grp 1 dotPlus], "appointment_location",
    fun g => plainStr (pyStrip ⟨g⟩)⟩,
  ⟨reCat [lits "practice ", .alt (lits "is ") (lits "name is "), .grp 1 dotPlus],
    "practice_name", fun g => plainStr (pyStrip ⟨g⟩)⟩,
  ⟨reCat [lits "practice contains ", .grp 1 dotPlus], "practice_name",
    fun g => plainStr (pyStrip ⟨g⟩)⟩]

/-- Source: `conditions[field] = value` on a Python dict (insertion order kept). -/
def upsertCond (k : String) (v : SCondVal) :
    List (String × SCondVal) → List (String × SCondVal)
  | [] => [(k, v)]
  | kv :: t => if kv.1 == k then (kv.1, v) :: t else kv :: upsertCond k v t

/-- Source: `NLPRuleParser.extract_conditions`. -/
def synExtractConditions (text : String) : List (String × SCondVal) :=
  let s := (pyLower text).data
  synCondPats.foldl (fun acc pat =>
    (reFindAll pat.re (s.length + 1) s).foldl
      (fun acc2 caps => upsertCond pat.field (pat.conv (capsGet caps 1)) acc2) acc) []

/-- The literal alternations of the `action_patterns` regexes
(`send (?:an? )?sms|text (?:them|patient)|sms to patient` etc.): a match
exists iff one of the expanded literals occurs as a substring. -/
def synSmsHits : List String :=
  ["send sms", "send a sms", "send an sms", "text them", "text patient", "sms to patient"]

def synEmailHits : List String :=
  ["send email", "send a email", "send an email", "email them", "email patient"]

def synCallHits : List String := ["call them", "call patient", "make call", "make a call"]

def synActionHit (pats : List String) (s : List Char) : Bool :=
  pats.any (fun p => containsSub p.data s)

/-- Quoted capture with a case-insensitive literal prelude (the syntax
parser compiles these with `re.IGNORECASE` against the original text). -/
def ciQuoted (pre : String) : RE :=
  reCat [ciLit pre.data, .cls isQuoteCh, .grp 1 (.plusG notQuoteCh), .cls isQuoteCh]

/-- Source: `rf'{action_type}[:\s]+["\']([^"\']+)["\']'`. -/
def ciActionQuoted (actionType : String) : RE :=
  reCat [ciLit actionType.data, .plusG (fun c => c = ':' || isSpaceCh c),
    .cls isQuoteCh, .grp 1 (.plusG notQuoteCh), .cls isQuoteCh]

/-- Source: `NLPRuleParser.extract_custom_message`. -/
def synExtractCustomMessage (orig : List Char) (actionType : String) : Option String :=
  [ciActionQuoted actionType, ciQuoted "saying ", ciQuoted "message ",
    ciQuoted "with message "].findSome?
    (fun re => (reSearch re orig).map (fun x => (⟨capsGet x.2.2 1⟩ : String)))

/-- Source: `NLPRuleParser.extract_email_subject`. -/
def synExtractEmailSubject (orig : List Char) : Option String :=
  (reSearch (ciQuoted "subject ") orig).map (fun x => (⟨capsGet x.2.2 1⟩ : String))

def upsertTmpl (k : String) (v : Tmpl) :
    List (String × Tmpl) → List (String × Tmpl)
  | [] => [(k, v)]
  | kv :: t => if kv.1 == k then (kv.1, v) :: t else kv :: upsertTmpl k v t

def synDefaultSms : String :=
  "Hi {patient_first_name}, this is a reminder about your {appointment_type} appointment."

def synDefaultEmailBody : String :=
  "Dear {patient_first_name},\n\nThis is a reminder about your {appointment_type} appointment.\n\nBest regards,\n{practice_name}"

def synDefaultCall : String :=
  "Hi {patient_first_name}, this is {practice_name} calling about your {appointment_type} appointment."

/-- Source: `NLPRuleParser.extract_actions`. -/
def synExtractActions (text : String) : List String × List (String × Tmpl) :=
  let lower := (pyLower text).data
  let orig := text.data
  let step := fun (acc : List String × List (String × Tmpl))
      (pa : List String × String) =>
    if synActionHit pa.1 lower then
      let action := pa.2
      let cm := synExtractCustomMessage orig (pyLower action)
      let tpl : Tmpl :=
        if action = "SMS" then .tstr (cm.getD synDefaultSms)
        else if action = "EMAIL" then
          .tdict (pyOrStr (synExtractEmailSubject orig) "Appointment Reminder")
            (cm.getD synDefaultEmailBody)
        else .tstr (cm.getD synDefaultCall)
      (acc.1 ++ [action], upsertTmpl action tpl acc.2)
    else acc
  [(synSmsHits, "SMS"), (synEmailHits, "EMAIL"), (synCallHits, "CALL")].foldl step ([], [])

structure SynRule where
  rid : String
  conditions : List (String × SCondVal)
  actions : List String
  templates : List (String × Tmpl)
  original_text : String

/-- Source: `r'^(\d+)\.\s*(.+)'` for the optional leading rule number. -/
def ruleIdRE : RE := reCat [.grp 1 digits1, lits ".", .starG isSpaceCh, .grp 2 dotPlus]

/-- The three `if_then_patterns` of `parse_rule` (`re.IGNORECASE`). -/
def synIfThen1 : RE :=
  reCat [ciLit "if".data, .plusG isSpaceCh, .grp 1 (.plusL notNL), .plusG isSpaceCh,
    ciLit "then".data, .plusG isSpaceCh, .grp 2 (.plusG notNL)]

def synIfThen2 : RE :=
  reCat [ciLit "when".data, .plusG isSpaceCh, .grp 1 (.plusL notNL), .plusG isSpaceCh,
    ciLit "then".data, .plusG isSpaceCh, .grp 2 (.plusG notNL)]

def synIfThen3 : RE :=
  reCat [ciLit "if".data, .plusG isSpaceCh, .grp 1 (.plusL notNL), lits ",",
    .starG isSpaceCh, .grp 2 (.plusG notNL)]

/-- Source: `NLPRuleParser.parse_rule`; `none` is the source's `return None`
(printed parse failure). -/
def synParseRule (rule_text : String) : Option SynRule :=
  let t := pyStrip rule_text
  let idc : String × String :=
    match reMatchHere ruleIdRE t.data with
    | Option.some caps =>
      ("rule_" ++ (⟨capsGet caps 1⟩ : String), (⟨capsGet caps 2⟩ : String))
    | Option.none => ("user_rule", t)
  match [synIfThen1, synIfThen2, synIfThen3].findSome?
      (fun re => (reSearch re idc.2.data).map (fun x => x.2.2)) with
  | Option.none => Option.none
  | Option.some caps =>
    let ct := pyStrip ⟨capsGet caps 1⟩
    let att := pyStrip ⟨capsGet caps 2⟩
    if ct = "" || att = "" then Option.none
    else
      let conds := synExtractConditions ct
      let acts := synExtractActions att
      if acts.1.isEmpty then Option.none
      else Option.some ⟨idc.1, conds, acts.1, acts.2, t⟩

/-! ## `floe_rules_engine/rules_engine`: utils and action rendering -/

structure FloePatient where
  fpid : String
  first_name : String
  last_name : String
  phone : String
  email : String
  dnc : Bool
deriving DecidableEq

structure FloePractice where
  fprid : String
  name : String
  domain : String
  reply_to_email : String
  default_sender_phone : String
deriving DecidableEq

structure FloeAppt where
  faid : String
  patient_id : String
  practice_id : String
  start_time : Option String
deriving DecidableEq

structure FloeIntake where
  appointment_id : String
  link : String
deriving DecidableEq

structure FloeEvent where
  etype : String
  occurred_at : String
  payload_appointment_id : Option String
  payload_patient_id : Option String
  payload_practice_id : Option String
deriving DecidableEq

/-- The engine's loaded `Context` (practices/patients/appointments/intakes
maps). -/
structure FloeCtx where
  practices : List FloePractice
  patients : List FloePatient
  appointments : List FloeAppt
  intakes_by_appt : List FloeIntake
deriving DecidableEq

/-- A rule's template value: a string or the EMAIL `{subject, body}` dict. -/
inductive FloeTpl where
  | fstr : String → FloeTpl
  | fdict : String → String → FloeTpl
deriving DecidableEq

structure FloeRule where
  actions : List String
  templates : List (String × FloeTpl)
deriving DecidableEq

/-- Source: `utils.render_template`: replaces every `{{k}}` for each data key, in
dict order; it never fails, unknown placeholders stay verbatim. -/
def renderTemplate (tpl : String) (data : List (String × String)) : String :=
  if tpl = "" then ""
  else data.foldl (fun out kv =>
    pyReplace out ("\x7b\x7b" ++ kv.1 ++ "\x7d\x7d") kv.2) tpl

/-- Entity resolution at the top of `render_action_messages` (and
`match_conditions`): appointment from the payload. -/
def floeApptOf (ev : FloeEvent) (ctx : FloeCtx) : Option FloeAppt :=
  match ev.payload_appointment_id with
  | Option.some aid2 => ctx.appointments.find? (fun a => a.faid == aid2)
  | Option.none => Option.none

def floePatientOf (ev : FloeEvent) (ctx : FloeCtx) : Option FloePatient :=
  match floeApptOf ev ctx with
  | Option.some a => ctx.patients.find? (fun p => p.fpid == a.patient_id)
  | Option.none =>
    match ev.payload_patient_id with
    | Option.some pid2 => ctx.patients.find? (fun p => p.fpid == pid2)
    | Option.none => Option.none

def floePracticeOf (ev : FloeEvent) (ctx : FloeCtx) : Option FloePractice :=
  match floeApptOf ev ctx with
  | Option.some a => ctx.practices.find? (fun p => p.fprid == a.practice_id)
  | Option.none =>
    match ev.payload_practice_id with
    | Option.some prid2 => ctx.practices.find? (fun p => p.fprid == prid2)
    | Option.none => Option.none

/-- The template-data dict built by `render_action_messages`. -/
def floeData (patient : Option FloePatient) (practice : Option FloePractice)
    (appointment_time : String) (intake_link : String) : List (String × String) :=
  [("patient_name", match patient with
    | Option.some p => p.first_name ++ " " ++ p.last_name
    | Option.none => ""),
   ("appointment_time", appointment_time),
   ("practice_name", ((practice.map FloePractice.name).getD "")),
   ("practice_domain", ((practice.map FloePractice.domain).getD "")),
   ("reply_to_email", ((practice.map FloePractice.reply_to_email).getD "")),
   ("sender_phone", ((practice.map FloePractice.default_sender_phone).getD "")),
   ("intake_link", intake_link)]

/-- One iteration of the action loop of `render_action_messages`. Passing
the EMAIL-style dict template to an SMS/CALL branch would call
`str.replace` on a dict: `AttributeError` (uncaught in the source). -/
def floeActOne (templates : List (String × FloeTpl)) (data : List (String × String))
    (patient : Option FloePatient) (action : String) : Except PyExc String :=
  let tplOpt : Option FloeTpl :=
    (templates.find? (fun kv => kv.1 == action)).map (fun kv => kv.2)
  let up := pyUpper action
  if up = "SMS" then do
    let msg ← match tplOpt with
      | Option.none => Except.ok (renderTemplate "Hi \x7b\x7bpatient_name\x7d\x7d" data)
      | Option.some (.fstr s) =>
        Except.ok (renderTemplate (if s = "" then "Hi \x7b\x7bpatient_name\x7d\x7d" else s) data)
      | Option.some (.fdict _ _) => Except.error PyExc.attributeError
    .ok ("Triggered SMS ▶ To: " ++ ((patient.map FloePatient.phone).getD "")
      ++ "\nMessage: " ++ msg)
  else if up = "EMAIL" then
    let sb : String × String :=
      match tplOpt with
      | Option.some (.fdict s b) => (renderTemplate s data, renderTemplate b data)
      | Option.some (.fstr s) => ("", renderTemplate s data)
      | Option.none => ("", renderTemplate "" data)
    .ok ("Triggered Email ▶ To: " ++ ((patient.map FloePatient.email).getD "")
      ++ "\nSubject: " ++ sb.1 ++ "\nBody: " ++ sb.2)
  else if up = "CALL" then do
    let script ← match tplOpt with
      | Option.none =>
        Except.ok (renderTemplate "Call \x7b\x7bpatient_name\x7d\x7d about their appointment." data)
      | Option.some (.fstr s) =>
        Except.ok (renderTemplate
          (if s = "" then "Call \x7b\x7bpatient_name\x7d\x7d about their appointment." else s) data)
      | Option.some (.fdict _ _) => Except.error PyExc.attributeError
    .ok ("Triggered Call ▶ To: " ++ ((patient.map FloePatient.phone).getD "")
      ++ "\nScript: " ++ script)
  else .ok ("UNKNOWN ACTION \x27" ++ action ++ "\x27 (no-op)")

def floeActsFold (templates : List (String × FloeTpl)) (data : List (String × String))
    (patient : Option FloePatient) : List String → Except PyExc (List String)
  | [] => .ok []
  | a :: rest =>
    match floeActOne templates data patient a with
    | .error e => .error e
    | .ok line =>
      match floeActsFold templates data patient rest with
      | .error e => .error e
      | .ok more => .ok (line :: more)

/-- Source: `RulesEngine.render_action_messages`. -/
def renderActionMessages (rule : FloeRule) (ev : FloeEvent) (ctx : FloeCtx) :
    Except PyExc (List String) :=
  let appt := floeApptOf ev ctx
  let patient := floePatientOf ev ctx
  let practice := floePracticeOf ev ctx
  match patient with
  | Option.some p =>
    if p.dnc then .ok ["SKIPPED (DNC) for patient " ++ p.fpid]
    else
      floeActsFold rule.templates
        (floeData patient practice
          ((appt.bind FloeAppt.start_time).getD "")
          (match appt with
           | Option.some a =>
             match ctx.intakes_by_appt.find? (fun x => x.appointment_id == a.faid) with
             | Option.some i => i.link
             | Option.none => ""
           | Option.none => ""))
        patient rule.actions
  | Option.none =>
    floeActsFold rule.templates
      (floeData Option.none practice
        ((appt.bind FloeAppt.start_time).getD "")
        (match appt with
         | Option.some a =>
           match ctx.intakes_by_appt.find? (fun x => x.appointment_id == a.faid) with
           | Option.some i => i.link
           | Option.none => ""
         | Option.none => ""))
      Option.none rule.actions

/-! ## Concrete sample data for witnesses and counterexamples -/

def samplePat1 : Patient :=
  ⟨"p1", "Ana", "Lopez", "555-0001", "ana@x.com", "es", true, true, true, true⟩

def samplePat2 : Patient :=
  ⟨"p2", "Bob", "Smith", "555-0002", "bob@x.com", "en", false, true, true, true⟩

def samplePrac : Practice :=
  ⟨"pr1", "Floe Clinic", "US/Eastern", "555-9000", "reply@floe.com", "floe.com"⟩

def sampleAppt1 : Appointment :=
  ⟨"a1", "p1", "pr1", "2025-09-11T12:00:00", "SCHEDULED", "Oncology infusion", "City1", "high"⟩

def sampleAppt2 : Appointment :=
  ⟨"a2", "p2", "pr1", "2025-09-11T12:00:00", "SCHEDULED", "MRI scan", "City1", "high"⟩

def sampleData : DataCache :=
  ⟨[samplePrac], [samplePat1, samplePat2], [sampleAppt1, sampleAppt2], [], []⟩

/-- A parsed rule with a single risk condition, as `semantic_parse`
produces for `"if high risk then send sms"` minus its action (used to
exercise `evalWithCtx` directly). -/
def c10rule : ParsedRule :=
  ⟨[⟨ConditionType.RISK_LEVEL, "no_show_risk", "equals", Value.vstr "high", mkRat 7 10⟩],
    [], "if high risk then send sms", mkRat 7 10⟩

def c10ctx : Ctx :=
  [("patient_dnc", Value.vbool true), ("patient_id", Value.vstr "p9"),
   ("no_show_risk", Value.vstr "high")]

def c2rule : ParsedRule :=
  ⟨[⟨ConditionType.RISK_LEVEL, "no_show_risk", "equals", Value.vstr "high", mkRat 9 10⟩,
    ⟨ConditionType.APPOINTMENT_TYPE, "appointment_type", "contains", Value.vstr "MRI", mkRat 8 10⟩],
    [], "", mkRat 8 10⟩

def c2ctx : Ctx :=
  [("no_show_risk", Value.vstr "high"), ("appointment_type", Value.vstr "Ortho")]

/-- The match that `evalWithCtx` computes on `c2rule`/`c2ctx` (its
confidence evaluates to `(9/10 / 2) * (1 / 2) = 9/40`). -/
def c2m : RuleMatch :=
  match evalWithCtx c2rule "a1" c2ctx with
  | .ok (Option.some m) => m
  | _ => ⟨"", Value.vnone, 0, []⟩

def fpatC3 : FloePatient := ⟨"p1", "Ana", "Lopez", "555-0001", "ana@x.com", true⟩

def fctxC3 : FloeCtx := ⟨[], [fpatC3], [], []⟩

def evC3 : FloeEvent :=
  ⟨"call.missed", "2025-09-10T12:00:00Z", Option.none, Option.some "p1", Option.none⟩

def ruleC3 : FloeRule := ⟨["SMS"], [("SMS", .fstr "Hi \x7b\x7bpatient_name\x7d\x7d")]⟩

def fpatC8 : FloePatient := ⟨"p2", "Bob", "Smith", "555-0002", "bob@x.com", false⟩

def fctxC8 : FloeCtx := ⟨[], [fpatC8], [], []⟩

def evC8 : FloeEvent :=
  ⟨"intake.updated", "2025-09-10T12:00:00Z", Option.none, Option.some "p2", Option.none⟩

/-- Floe rule whose SMS template references a field that is not in the
template-data dict, next to a well-formed CALL template. -/
def ruleC8 : FloeRule :=
  ⟨["SMS", "CALL"],
   [("SMS", .fstr "Hi \x7b\x7bunknown_field\x7d\x7d"),
    ("CALL", .fstr "Call \x7b\x7bpatient_name\x7d\x7d")]⟩

/-- Context with the do-not-contact flag off, used to exercise a failing
format next to succeeding siblings. -/
def c8ctx : Ctx :=
  [("patient_dnc", Value.vbool false), ("patient_first_name", Value.vstr "Bob"),
   ("appointment_type", Value.vstr "MRI"), ("patient_phone", Value.vstr "555-0002")]

/-- The urgent SMS template of the LLM engine references `{action_needed}`,
which no context ever defines, so formatting it always fails. -/
def c8bad : ParsedAction :=
  ⟨ActionType.SMS,
    .tstr "URGENT: \x7bpatient_first_name\x7d, please \x7baction_needed\x7d for your \x7bappointment_type\x7d appointment.",
    Option.none, Option.none⟩

def c8good1 : ParsedAction :=
  ⟨ActionType.SMS, .tstr "Hi \x7bpatient_first_name\x7d.", Option.none, Option.none⟩

def c8good2 : ParsedAction :=
  ⟨ActionType.CALL, .tstr "Calling about your \x7bappointment_type\x7d.", Option.none, Option.none⟩

def c9parsed : SynRule :=
  (synParseRule "if a then send sms").getD ⟨"x", [], [], [], ""⟩

/-- The result list of the LLM engine on `sampleData` for
`"if high risk then send sms"` with limit 1 (both appointments match with
equal confidence; the DNC patient's match is first in iteration order). -/
def c10res : List RuleMatch :=
  match evaluateRule sampleData "if high risk then send sms" 1 with
  | .ok l => l
  | .error _ => []

def c10parsed : ParsedRule :=
  (semanticParse "if high risk then send sms").getD ⟨[], [], "", 0⟩

/-- The match `evalWithCtx` computes on `c10rule`/`c10ctx`. -/
def c10m : RuleMatch :=
  match evalWithCtx c10rule "a9" c10ctx with
  | .ok (Option.some m) => m
  | _ => ⟨"", Value.vnone, 0, []⟩

def dummyMatch : RuleMatch := ⟨"", Value.vnone, 0, []⟩

def c7res : List RuleMatch :=
  match evaluateRule sampleData "if high risk then send sms" 1 with
  | .ok l => l
  | .error _ => []

def c8fdata : List (String × String) :=
  floeData (Option.some fpatC8) Option.none "" ""

/-- The lines the floe engine renders for `ruleC8` (none dropped). -/
def c8lines : List String :=
  match floeActsFold ruleC8.templates c8fdata (Option.some fpatC8) ["SMS", "CALL"] with
  | .ok l => l
  | .error _ => []

/-! ## Helper lemmas -/

theorem qble_iff (a b : ℚ) : qble a b = true ↔ a ≤ b := by
  have h : (a ≤ b) = (Rat.blt b a = false) := rfl
  rw [qble, h, Bool.not_eq_true']

theorem qmax0_nonneg (q : ℚ) : 0 ≤ qmax0 q := by
  rw [qmax0]
  by_cases h : Rat.blt q 0
  · rw [if_pos h]
  · rw [if_neg h]
    have hlt : ¬ q < 0 := fun hc => h hc
    exact le_of_not_lt hlt

theorem qadd_eq (a b : ℚ) : qadd a b = a + b := by
  have ha : ((a.den : ℚ)) ≠ 0 := Nat.cast_ne_zero.mpr a.den_nz
  have hb : ((b.den : ℚ)) ≠ 0 := Nat.cast_ne_zero.mpr b.den_nz
  rw [qadd, Rat.mkRat_eq_div]
  conv_rhs => rw [← Rat.num_div_den a, ← Rat.num_div_den b]
  push_cast
  field_simp
  try ring

theorem qmul_eq (a b : ℚ) : qmul a b = a * b := by
  have ha : ((a.den : ℚ)) ≠ 0 := Nat.cast_ne_zero.mpr a.den_nz
  have hb : ((b.den : ℚ)) ≠ 0 := Nat.cast_ne_zero.mpr b.den_nz
  rw [qmul, Rat.mkRat_eq_div]
  conv_rhs => rw [← Rat.num_div_den a, ← Rat.num_div_den b]
  push_cast
  try field_simp
  try ring

theorem qdiv_eq (a b : ℚ) : qdiv a b = a / b := by
  rcases lt_trichotomy b.num 0 with h | h | h
  · have hb : b ≠ 0 := Rat.num_ne_zero.mp (ne_of_lt h)
    have ha : ((a.den : ℚ)) ≠ 0 := Nat.cast_ne_zero.mpr a.den_nz
    have hd : ((b.den : ℚ)) ≠ 0 := Nat.cast_ne_zero.mpr b.den_nz
    have hn : ((b.num : ℚ)) ≠ 0 := Int.cast_ne_zero.mpr (ne_of_lt h)
    rw [qdiv, if_pos h, Rat.mkRat_eq_div]
    conv_rhs => rw [← Rat.num_div_den a, ← Rat.num_div_den b]
    push_cast [Int.cast_natAbs]
    rw [abs_of_neg (show ((b.num : ℚ)) < 0 by exact_mod_cast h)]
    field_simp
    try ring
  · have hb : b = 0 := Rat.num_eq_zero.mp h
    subst hb
    rw [qdiv]
    norm_num
  · have hb : b ≠ 0 := Rat.num_ne_zero.mp (ne_of_gt h)
    have ha : ((a.den : ℚ)) ≠ 0 := Nat.cast_ne_zero.mpr a.den_nz
    have hd : ((b.den : ℚ)) ≠ 0 := Nat.cast_ne_zero.mpr b.den_nz
    have hn : ((b.num : ℚ)) ≠ 0 := Int.cast_ne_zero.mpr (ne_of_gt h)
    rw [qdiv, if_neg (lt_asymm h), Rat.mkRat_eq_div]
    conv_rhs => rw [← Rat.num_div_den a, ← Rat.num_div_den b]
    push_cast [Int.cast_natAbs]
    rw [abs_of_pos (show (0 : ℚ) < (b.num : ℚ) by exact_mod_cast h)]
    field_simp
    try ring

theorem natQ_eq (n : ℕ) : natQ n = (n : ℚ) := by
  rw [natQ, Rat.mkRat_one]
  norm_cast

theorem intQ_eq (z : ℤ) : intQ z = (z : ℚ) := by
  rw [intQ, Rat.mkRat_one]

theorem mem_insDesc {z x : RuleMatch} {l : List RuleMatch} :
    z ∈ insDesc x l ↔ z = x ∨ z ∈ l := by
  induction l with
  | nil => simp [insDesc]
  | cons y t ih =>
    by_cases h : confLE x y
    · simp [insDesc, h]
    · simp only [insDesc, if_neg h, List.mem_cons, ih]
      tauto

theorem insDesc_pairwise (x : RuleMatch) (l : List RuleMatch)
    (h : l.Pairwise (fun a b => b.confidence ≤ a.confidence)) :
    (insDesc x l).Pairwise (fun a b => b.confidence ≤ a.confidence) := by
  induction l with
  | nil => simp [insDesc]
  | cons y t ih =>
    rw [List.pairwise_cons] at h
    by_cases hxy : confLE x y
    · have hyx : y.confidence ≤ x.confidence := (qble_iff y.confidence x.confidence).mp hxy
      rw [insDesc, if_pos hxy, List.pairwise_cons]
      refine ⟨?_, List.pairwise_cons.mpr h⟩
      intro z hz
      rcases List.mem_cons.mp hz with rfl | hz
      · exact hyx
      · exact le_trans (h.1 z hz) hyx
    · have hlt : x.confidence < y.confidence :=
        lt_of_not_le (fun hc => hxy ((qble_iff y.confidence x.confidence).mpr hc))
      rw [insDesc, if_neg hxy, List.pairwise_cons]
      refine ⟨?_, ih h.2⟩
      intro z hz
      rcases mem_insDesc.mp hz with rfl | hz
      · exact le_of_lt hlt
      · exact h.1 z hz

theorem sortDesc_pairwise (l : List RuleMatch) :
    (sortDesc l).Pairwise (fun a b => b.confidence ≤ a.confidence) := by
  induction l with
  | nil => exact List.Pairwise.nil
  | cons x t ih => exact insDesc_pairwise x _ ih

theorem filter_insDesc (q : ℚ) (x : RuleMatch) (l : List RuleMatch) :
    (insDesc x l).filter (fun m => m.confidence == q) =
      (x :: l).filter (fun m => m.confidence == q) := by
  induction l with
  | nil => rfl
  | cons y t ih =>
    by_cases h : confLE x y
    · rw [insDesc, if_pos h]
    · have hlt : x.confidence < y.confidence :=
        lt_of_not_le (fun hc => h ((qble_iff y.confidence x.confidence).mpr hc))
      rw [insDesc, if_neg h]
      by_cases hx : (x.confidence == q)
      · have hxq : x.confidence = q := by rwa [beq_iff_eq] at hx
        have hy : (y.confidence == q) = false := by
          rw [beq_eq_false_iff_ne]
          intro hyq
          rw [hxq, hyq] at hlt
          exact lt_irrefl q hlt
        simp [List.filter_cons, hx, hy, ih]
      · simp [List.filter_cons, hx, ih]

/-- Stability of the sort: elements of any fixed confidence keep their
original relative order. -/
theorem sortDesc_filter (q : ℚ) (l : List RuleMatch) :
    (sortDesc l).filter (fun m => m.confidence == q) =
      l.filter (fun m => m.confidence == q) := by
  induction l with
  | nil => rfl
  | cons x t ih =>
    rw [sortDesc, filter_insDesc, List.filter_cons, List.filter_cons, ih]

/-- The condition-accumulation loop computes the weight sum and the count
of the satisfied conditions. -/
theorem condFold_spec (ctx : Ctx) :
    ∀ (conds : List ParsedCondition) (t : ℚ) (m : ℕ),
      condFold ctx conds = .ok (t, m) →
      t = ((satisfiedConds ctx conds).map ParsedCondition.confidence).sum ∧
        m = (satisfiedConds ctx conds).length := by
  intro conds
  induction conds with
  | nil =>
    intro t m h
    simp only [condFold, Except.ok.injEq, Prod.mk.injEq] at h
    simp [satisfiedConds, ← h.1, ← h.2]
  | cons c rest ih =>
    intro t m h
    rw [condFold] at h
    cases hb : evalCondition c ctx with
    | error e => rw [hb] at h; simp at h
    | ok b =>
      rw [hb] at h
      cases hr : condFold ctx rest with
      | error e => rw [hr] at h; simp at h
      | ok tm =>
        obtain ⟨t', m'⟩ := tm
        rw [hr] at h
        simp only [Except.ok.injEq] at h
        obtain ⟨ht', hm'⟩ := ih t' m' hr
        have hch : condHolds ctx c = b := by
          cases b <;> simp [condHolds, hb]
        cases b with
        | true =>
          rw [if_pos rfl] at h
          obtain ⟨h1, h2⟩ := Prod.mk.injEq .. |>.mp h
          simp only [satisfiedConds, List.filter_cons, hch, if_pos rfl]
          constructor
          · rw [← h1, ht', qadd_eq]; simp [satisfiedConds]; ring
          · rw [← h2, hm']; simp [satisfiedConds]
        | false =>
          rw [if_neg (by simp)] at h
          obtain ⟨h1, h2⟩ := Prod.mk.injEq .. |>.mp h
          simp only [satisfiedConds, List.filter_cons, hch]
          constructor
          · rw [← h1, ht']; simp [satisfiedConds]
          · rw [← h2, hm']; simp [satisfiedConds]

/-- Inversion for `evalWithCtx`. -/
theorem evalWithCtx_spec (rule : ParsedRule) (aid : String) (ctx : Ctx)
    (res : Option RuleMatch) (h : evalWithCtx rule aid ctx = .ok res) :
    ∃ t m, condFold ctx rule.conditions = .ok (t, m) ∧
      res = (if m = 0 then Option.none
        else Option.some ⟨aid, ctxGet ctx "patient_id",
          qmul (qdiv t (natQ rule.conditions.length))
            (qdiv (natQ m) (natQ rule.conditions.length)),
          generateActions rule.actions ctx⟩) := by
  rw [evalWithCtx] at h
  cases hc : condFold ctx rule.conditions with
  | error e => rw [hc] at h; simp at h
  | ok tm =>
    obtain ⟨t, m⟩ := tm
    rw [hc] at h
    replace h : (if m = 0 then (Except.ok Option.none : Except PyExc (Option RuleMatch))
        else Except.ok (Option.some ⟨aid, ctxGet ctx "patient_id",
          qmul (qdiv t (natQ rule.conditions.length))
            (qdiv (natQ m) (natQ rule.conditions.length)),
          generateActions rule.actions ctx⟩)) = Except.ok res := h
    refine ⟨t, m, rfl, ?_⟩
    by_cases hm : m = 0
    · rw [if_pos hm]
      rw [if_pos hm] at h
      simp only [Except.ok.injEq] at h
      exact h.symm
    · rw [if_neg hm]
      rw [if_neg hm] at h
      simp only [Except.ok.injEq] at h
      exact h.symm

theorem floeActsFold_length (templates : List (String × FloeTpl))
    (data : List (String × String)) (p : Option FloePatient) :
    ∀ (acts : List String) (out : List String),
      floeActsFold templates data p acts = .ok out → out.length = acts.length := by
  intro acts
  induction acts with
  | nil =>
    intro out h
    simp only [floeActsFold, Except.ok.injEq] at h
    simp [← h]
  | cons a rest ih =>
    intro out h
    rw [floeActsFold] at h
    cases h1 : floeActOne templates data p a with
    | error e => rw [h1] at h; simp at h
    | ok line =>
      rw [h1] at h
      cases h2 : floeActsFold templates data p rest with
      | error e => rw [h2] at h; simp at h
      | ok more =>
        rw [h2] at h
        simp only [Except.ok.injEq] at h
        rw [← h]
        simp [ih more h2]

/-! ## Claim theorems -/

/-- C1 (counterexample): `"if x then send sms"` parses successfully with
zero extracted conditions, yet over a dataset with an appointment whose
context builds fine, the LLM engine's `evaluate_rule` returns no matches at
all — the zero-condition rule matches nothing, not everything. -/
theorem c1_counterexample :
    (semanticParse "if x then send sms").map ParsedRule.conditions = Option.some [] ∧
    (buildContext sampleData "a1" fixedNow).isSome = true ∧
    evaluateRule sampleData "if x then send sms" 10 = .ok [] :=
  ⟨rfl, rfl, rfl⟩

/-- C1 (amended): in the syntax engine a rule with an empty conditions dict
vacuously matches every context; in the LLM engine a parsed rule with zero
conditions never matches: `_evaluate_appointment` returns `None` on every
context, because its `matched_conditions == 0` guard fires. -/
theorem c1_zero_conditions :
    (∀ ctx : Ctx, synEvaluateRule [] ctx = true) ∧
    (∀ (rule : ParsedRule) (aid : String) (ctx : Ctx),
      rule.conditions = [] → evalWithCtx rule aid ctx = .ok Option.none) := by
  constructor
  · intro ctx
    rfl
  · intro rule aid ctx hc
    rw [evalWithCtx, hc]
    rfl

/-- C1 (witness for the amended theorem). -/
theorem c1_zero_conditions_witness :
    synEvaluateRule [] [("no_show_risk", Value.vstr "high")] = true ∧
    evalWithCtx ⟨[], [], "if x then send sms", 1/2⟩ "a1" [] = .ok Option.none :=
  ⟨c1_zero_conditions.1 [("no_show_risk", Value.vstr "high")],
   c1_zero_conditions.2 ⟨[], [], "if x then send sms", 1/2⟩ "a1" [] rfl⟩

/-- C2: for a parsed rule with at least one condition, the aggregate match
confidence equals (sum of satisfied conditions' weights / total condition
count) × (satisfied count / total condition count), and an evaluation with
zero satisfied conditions yields `None` rather than a zero-confidence
match. -/
theorem c2_confidence_formula (rule : ParsedRule) (aid : String) (ctx : Ctx)
    (res : Option RuleMatch) (hne : rule.conditions ≠ [])
    (h : evalWithCtx rule aid ctx = .ok res) :
    (res = Option.none ↔ satisfiedConds ctx rule.conditions = []) ∧
    ∀ m, res = Option.some m →
      m.confidence =
        (((satisfiedConds ctx rule.conditions).map ParsedCondition.confidence).sum /
            rule.conditions.length) *
          (((satisfiedConds ctx rule.conditions).length : ℚ) / rule.conditions.length) := by
  obtain ⟨t, n, hc, hres⟩ := evalWithCtx_spec rule aid ctx res h
  obtain ⟨ht, hn⟩ := condFold_spec ctx rule.conditions t n hc
  subst hres
  constructor
  · by_cases hz : n = 0
    · rw [if_pos hz]
      simp only [true_iff]
      exact List.length_eq_zero.mp (by rw [← hn, hz])
    · rw [if_neg hz]
      constructor
      · intro hcontra
        exact absurd hcontra (by simp)
      · intro hsat
        rw [hsat] at hn
        exact absurd hn (by simpa using hz)
  · intro m hm
    by_cases hz : n = 0
    · rw [if_pos hz] at hm
      exact absurd hm (by simp)
    · rw [if_neg hz] at hm
      simp only [Option.some.injEq] at hm
      rw [← hm]
      simp only [qmul_eq, qdiv_eq, natQ_eq]
      rw [← ht, ← hn]

/-- C2 (witness): a two-condition rule of which exactly one condition is
satisfied scores `(0.9 / 2) * (1 / 2) = 9/40`. -/
theorem c2_confidence_formula_witness :
    (Option.some c2m = Option.none ↔ satisfiedConds c2ctx c2rule.conditions = []) ∧
    ∀ m, Option.some c2m = Option.some m →
      m.confidence =
        (((satisfiedConds c2ctx c2rule.conditions).map ParsedCondition.confidence).sum /
            c2rule.conditions.length) *
          (((satisfiedConds c2ctx c2rule.conditions).length : ℚ) / c2rule.conditions.length) :=
  c2_confidence_formula c2rule "a1" c2ctx (Option.some c2m) (by decide) (by rfl)

/-- C4: a rule text in which the `if … then …` regex finds no boundary
makes `semantic_parse` return a failure (`None`, not a crash) and makes
`evaluate_rule` return an empty result list over any dataset. -/
theorem c4_parse_failure (t : String) (d : DataCache) (limit : ℕ)
    (h : searchIfThen (pyLower (pyStrip t)).data = Option.none) :
    semanticParse t = Option.none ∧ evaluateRule d t limit = .ok [] := by
  have hp : semanticParse t = Option.none := by
    rw [semanticParse, h]
  exact ⟨hp, by rw [evaluateRule, hp]⟩

/-- C4 (witness). -/
theorem c4_parse_failure_witness :
    semanticParse "hello world" = Option.none ∧
    evaluateRule sampleData "hello world" 3 = .ok [] :=
  c4_parse_failure "hello world" sampleData 3 rfl

/-- C5 (counterexample): a `<=` condition against a non-numeric context
value does not evaluate to false — the uncaught `float(...)` coercion
raises `ValueError` (`_evaluate_condition` has no try/except). -/
theorem c5_counterexample :
    evalCondition
      ⟨ConditionType.TIME_BASED, "hours_until", "<=", Value.vnum 24, 9/10⟩
      [("hours_until", Value.vstr "soon")] = .error PyExc.valueError :=
  rfl

/-- C5 (amended): a condition whose field is absent from the context (or
bound to `None`) evaluates false without raising; but for `<=`/`>=` with a
present context value whose `float(...)` coercion fails, the exception
propagates out of `_evaluate_condition`. -/
theorem c5_condition_safety :
    (∀ (c : ParsedCondition) (ctx : Ctx),
      ctxGet ctx c.field = Value.vnone → evalCondition c ctx = .ok false) ∧
    (∀ (c : ParsedCondition) (ctx : Ctx) (e : PyExc),
      (c.op = "<=" ∨ c.op = ">=") → ctxGet ctx c.field ≠ Value.vnone →
      pyFloat (ctxGet ctx c.field) = .error e → evalCondition c ctx = .error e) := by
  constructor
  · intro c ctx h
    rw [evalCondition, if_pos h]
  · intro c ctx e hop hnone herr
    rcases hop with hop | hop
    · rw [evalCondition, if_neg hnone, if_neg (by rw [hop]; decide),
        if_neg (by rw [hop]; decide), if_pos hop, herr]
    · rw [evalCondition, if_neg hnone, if_neg (by rw [hop]; decide),
        if_neg (by rw [hop]; decide), if_neg (by rw [hop]; decide), if_pos hop, herr]

/-- C5 (witness for the amended theorem). -/
theorem c5_condition_safety_witness :
    evalCondition
      ⟨ConditionType.STATUS, "intake_status", "equals", Value.vstr "COMPLETE", 8/10⟩
      [] = .ok false ∧
    evalCondition
      ⟨ConditionType.TIME_BASED, "hours_until", ">=", Value.vnum 2, 9/10⟩
      [("hours_until", Value.vstr "high")] = .error PyExc.valueError :=
  ⟨c5_condition_safety.1
      ⟨ConditionType.STATUS, "intake_status", "equals", Value.vstr "COMPLETE", 8/10⟩ [] rfl,
   c5_condition_safety.2
      ⟨ConditionType.TIME_BASED, "hours_until", ">=", Value.vnum 2, 9/10⟩
      [("hours_until", Value.vstr "high")] PyExc.valueError (Or.inr rfl)
      (by decide) rfl⟩

/-- C3 (counterexample): in the floe engine, rendering for a do-not-contact
patient does not return an empty list — it returns one "SKIPPED (DNC)"
marker entry, and that entry contains the patient's id. -/
theorem c3_counterexample :
    (floePatientOf evC3 fctxC3 = Option.some fpatC3 ∧ fpatC3.dnc = true) ∧
    renderActionMessages ruleC3 evC3 fctxC3 = .ok ["SKIPPED (DNC) for patient p1"] ∧
    strIn "p1" "SKIPPED (DNC) for patient p1" = true :=
  ⟨⟨rfl, rfl⟩, rfl, rfl⟩

/-- C3 (amended): with the do-not-contact flag set, the LLM engine's
`_generate_actions` returns an empty list (no SMS/EMAIL/CALL payload);
the floe engine's `render_action_messages` produces no channel payload
either, but returns a single skip-marker string that carries the
patient's id. -/
theorem c3_dnc_suppression :
    (∀ (actions : List ParsedAction) (ctx : Ctx),
      pyTruthy (ctxGet ctx "patient_dnc") = true → generateActions actions ctx = []) ∧
    (∀ (rule : FloeRule) (ev : FloeEvent) (fc : FloeCtx) (p : FloePatient),
      floePatientOf ev fc = Option.some p → p.dnc = true →
      renderActionMessages rule ev fc = .ok ["SKIPPED (DNC) for patient " ++ p.fpid]) := by
  constructor
  · intro actions ctx h
    simp [generateActions, h]
  · intro rule ev fc p hp hdnc
    simp [renderActionMessages, hp, hdnc]

/-- C3 (witness for the amended theorem). -/
theorem c3_dnc_suppression_witness :
    generateActions [] [("patient_dnc", Value.vbool true)] = [] ∧
    renderActionMessages ruleC3 evC3 fctxC3 =
      .ok ["SKIPPED (DNC) for patient " ++ fpatC3.fpid] :=
  ⟨c3_dnc_suppression.1 [] [("patient_dnc", Value.vbool true)] rfl,
   c3_dnc_suppression.2 ruleC3 evC3 fctxC3 fpatC3 rfl rfl⟩

/-- C6: the LLM engine's `hours_until` is clamped at 0, equals the true
difference in hours on parsable timestamps (6 for the sample pair), and
falls back to 24 on unparsable input; but the syntax engine's
`simple_datetime_diff` mangles any dashed ISO date (`.split('-')[0]` keeps
only the year, which contains no `'T'`) and returns the fallback 24 even
for the perfectly parsable pair whose true difference is 6. -/
theorem c6_hours_until :
    (∀ cur st : String, 0 ≤ llmHoursUntil cur st) ∧
    llmHoursUntil "2025-09-10T12:00:00Z" "2025-09-10T18:00:00" = 6 ∧
    llmHoursUntil "not a timestamp" "2025-09-10T18:00:00" = 24 ∧
    simpleDatetimeDiff "2025-09-10T12:00:00Z" "2025-09-10T18:00:00" = 24 ∧
    simpleDatetimeDiff "not a timestamp" "2025-09-10T18:00:00" = 24 := by
  refine ⟨?_, rfl, rfl, rfl, rfl⟩
  intro cur st
  rw [llmHoursUntil]
  cases hc : parseIso (pyReplace cur "Z" "") with
  | none => norm_num
  | some c =>
    cases ha : parseIso st with
    | none => norm_num
    | some a => exact qmax0_nonneg _

/-- C7: every result list of `evaluate_rule` has length at most `limit`,
is sorted by descending aggregate confidence, and is the `limit`-prefix of
a stable sort of the matches in original appointment iteration order
(stability: the elements of any fixed confidence appear in their original
relative order). -/
theorem c7_sorted_truncated (d : DataCache) (t : String) (limit : ℕ)
    (l : List RuleMatch) (h : evaluateRule d t limit = .ok l) :
    l.length ≤ limit ∧
    l.Pairwise (fun a b => b.confidence ≤ a.confidence) ∧
    ∀ rule, semanticParse t = Option.some rule →
      ∃ ms, collectMatches d rule fixedNow (limit * 2)
          (d.appointments.map Appointment.aid) 0 = .ok ms ∧
        l = (sortDesc ms).take limit ∧
        ∀ q : ℚ, (sortDesc ms).filter (fun m => m.confidence == q) =
          ms.filter (fun m => m.confidence == q) := by
  rw [evaluateRule] at h
  cases hp : semanticParse t with
  | none =>
    rw [hp] at h
    replace h : (Except.ok [] : Except PyExc (List RuleMatch)) = Except.ok l := h
    simp only [Except.ok.injEq] at h
    subst h
    refine ⟨by simp, List.Pairwise.nil, ?_⟩
    intro rule hr
    exact Option.noConfusion hr
  | some rule =>
    rw [hp] at h
    replace h : (match collectMatches d rule fixedNow (limit * 2)
        (d.appointments.map Appointment.aid) 0 with
      | .error e => (.error e : Except PyExc (List RuleMatch))
      | .ok ms => .ok ((sortDesc ms).take limit)) = Except.ok l := h
    cases hcm : collectMatches d rule fixedNow (limit * 2)
        (d.appointments.map Appointment.aid) 0 with
    | error e => rw [hcm] at h; simp at h
    | ok ms =>
      rw [hcm] at h
      simp only [Except.ok.injEq] at h
      subst h
      refine ⟨?_, ?_, ?_⟩
      · rw [List.length_take]
        exact min_le_left _ _
      · exact List.Pairwise.sublist (List.take_sublist _ _) (sortDesc_pairwise ms)
      · intro rule' hr'
        obtain rfl : rule = rule' := Option.some.inj hr'
        exact ⟨ms, hcm, rfl, fun q => sortDesc_filter q ms⟩

/-- C7 (witness). -/
theorem c7_sorted_truncated_witness :
    c7res.length ≤ 1 ∧
    c7res.Pairwise (fun a b => b.confidence ≤ a.confidence) ∧
    ∀ rule, semanticParse "if high risk then send sms" = Option.some rule →
      ∃ ms, collectMatches sampleData rule fixedNow (1 * 2)
          (sampleData.appointments.map Appointment.aid) 0 = .ok ms ∧
        c7res = (sortDesc ms).take 1 ∧
        ∀ q : ℚ, (sortDesc ms).filter (fun m => m.confidence == q) =
          ms.filter (fun m => m.confidence == q) :=
  c7_sorted_truncated sampleData "if high risk then send sms" 1 c7res rfl

/-- C8 (counterexample): in the floe engine an unknown placeholder does not
make the action fail, and the action is not dropped: the SMS with the
undefined `unknown_field` placeholder is rendered verbatim next to its
sibling CALL action. -/
theorem c8_counterexample :
    renderActionMessages ruleC8 evC8 fctxC8 =
      .ok ["Triggered SMS ▶ To: 555-0002\nMessage: Hi \x7b\x7bunknown_field\x7d\x7d",
        "Triggered Call ▶ To: 555-0002\nScript: Call Bob Smith"] ∧
    strIn "\x7b\x7bunknown_field\x7d\x7d"
      "Triggered SMS ▶ To: 555-0002\nMessage: Hi \x7b\x7bunknown_field\x7d\x7d" = true :=
  ⟨rfl, rfl⟩

/-- C8 (amended): in the LLM engine, a format failure in one action drops
only that action — the renders of the surrounding actions are untouched;
in the floe engine, rendering never drops an action: the output has
exactly one entry per action, unknown `\x7b\x7b...\x7d\x7d` placeholders
staying verbatim. -/
theorem c8_drop_only_failing :
    (∀ (ctx : Ctx) (xs ys : List ParsedAction) (bad : ParsedAction),
      pyTruthy (ctxGet ctx "patient_dnc") = false → genOne ctx bad = Option.none →
      generateActions (xs ++ bad :: ys) ctx =
        generateActions xs ctx ++ generateActions ys ctx) ∧
    (∀ (templates : List (String × FloeTpl)) (data : List (String × String))
        (p : Option FloePatient) (acts : List String) (out : List String),
      floeActsFold templates data p acts = .ok out → out.length = acts.length) := by
  constructor
  · intro ctx xs ys bad hdnc hbad
    simp [generateActions, hdnc, List.filterMap_append, List.filterMap_cons, hbad]
  · intro templates data p acts out h
    exact floeActsFold_length templates data p acts out h

/-- C8 (witness for the amended theorem): the urgent SMS template (its
`\x7baction_needed\x7d` placeholder is defined by no context) is dropped
while both siblings render; the floe render of `ruleC8` keeps one line per
action. -/
theorem c8_drop_only_failing_witness :
    generateActions ([c8good1] ++ c8bad :: [c8good2]) c8ctx =
      generateActions [c8good1] c8ctx ++ generateActions [c8good2] c8ctx ∧
    c8lines.length = (["SMS", "CALL"] : List String).length :=
  ⟨c8_drop_only_failing.1 c8ctx [c8good1] [c8good2] c8bad rfl rfl,
   c8_drop_only_failing.2 ruleC8.templates c8fdata (Option.some fpatC8)
     ["SMS", "CALL"] c8lines rfl⟩

/-- C9 (counterexample): `semantic_parse` accepts
`"if high risk then wait"` — whose then-clause contains no recognizable
channel — and silently returns a parsed rule with an empty action list. -/
theorem c9_counterexample :
    (semanticParse "if high risk then wait").map ParsedRule.actions = Option.some [] ∧
    (semanticParse "if high risk then wait").isSome = true :=
  ⟨rfl, rfl⟩

/-- C9 (amended): the syntax engine's parser honours the claim — whenever
`parse_rule` returns a structured rule, its action list is non-empty (it
returns `None` when no action is recognized); the LLM engine's
`semantic_parse` does not (see the counterexample). -/
theorem c9_no_empty_actions (t : String) (r : SynRule)
    (h : synParseRule t = Option.some r) : r.actions ≠ [] := by
  simp only [synParseRule] at h
  split at h
  · exact absurd h (by simp)
  · split at h
    · exact absurd h (by simp)
    · split at h
      · exact absurd h (by simp)
      · rename_i hne
        simp only [Option.some.injEq] at h
        subst h
        simpa using hne

/-- C9 (witness for the amended theorem). -/
theorem c9_no_empty_actions_witness : c9parsed.actions ≠ [] :=
  c9_no_empty_actions "if a then send sms" c9parsed rfl

/-- C10: an appointment that satisfies a rule's conditions but whose
patient is do-not-contact still yields a `RuleMatch` — carrying the
context's patient id and an empty triggered-actions list — and such a
match counts toward the result limit: on `sampleData` (where both
appointments match `"if high risk then send sms"` equally), the DNC
patient's match occupies the single slot of `limit = 1`. -/
theorem c10_dnc_match :
    (∀ (rule : ParsedRule) (aid : String) (ctx : Ctx) (m : RuleMatch),
      pyTruthy (ctxGet ctx "patient_dnc") = true →
      evalWithCtx rule aid ctx = .ok (Option.some m) →
      m.triggered_actions = [] ∧ m.patient_id = ctxGet ctx "patient_id") ∧
    (samplePat1.dnc = true ∧
     c10res.length = 1 ∧
     (c10res.headD dummyMatch).appointment_id = "a1" ∧
     (c10res.headD dummyMatch).patient_id = Value.vstr "p1" ∧
     (c10res.headD dummyMatch).triggered_actions = [] ∧
     (match evalAppointment sampleData "a2" c10parsed fixedNow with
      | .ok (Option.some _) => true
      | _ => false) = true) := by
  constructor
  · intro rule aid ctx m hdnc h
    obtain ⟨t, n, hc, hres⟩ := evalWithCtx_spec rule aid ctx _ h
    by_cases hz : n = 0
    · rw [if_pos hz] at hres
      exact absurd hres (by simp)
    · rw [if_neg hz] at hres
      simp only [Option.some.injEq] at hres
      rw [hres]
      constructor
      · simp [generateActions, hdnc]
      · rfl
  · exact ⟨rfl, rfl, rfl, rfl, rfl, rfl⟩

/-- C10 (witness for the universally quantified part). -/
theorem c10_dnc_match_witness :
    c10m.triggered_actions = [] ∧ c10m.patient_id = ctxGet c10ctx "patient_id" :=
  c10_dnc_match.1 c10rule "a9" c10ctx c10m rfl rfl
